import Mathlib

/-!
Shallow embedding of the terminal component of `Thetoicxdude/personal_web`
(`src/unnamed/part_000`, a React component implementing an interactive
shell over an in-memory virtual filesystem).

Modelling conventions:
* React `useState` semantics: during one top-level `processCommand`
  dispatch every read of a state variable sees the render-time snapshot
  (the closure), while `setX` calls accumulate on a pending state that
  becomes visible only after the dispatch.  `processCommand` therefore
  takes a `snap` (snapshot) and a `pend` (pending) state; reads come from
  `snap`, writes go to `pend`.  Updater-style calls (`setX (prev => ...)`)
  read the pending value.
* A thrown JavaScript exception (TypeError on a property access of
  `undefined`, or stack overflow from unbounded recursion) is modelled by
  the `none` results of an `Option`; the pending state updates made before
  the throw still apply, as React applies queued updates even when an
  event handler throws.
* `setTimeout` / `setInterval` callbacks are modelled as an explicit list
  of `Sched` values returned by the dispatch and applied later by
  `applySched`, in order.
* `Date` values are presentation data and are not modelled; the wall-clock
  string used by `date` / `uname -a` is a `now` field of the state.
* The JavaScript string primitives (`split`, `includes`, `startsWith`,
  `toLowerCase`, `slice`, `replace`) are re-implemented structurally on
  the character list (`jsSplit`, `containsChar`, `strStartsWith`,
  `toLowerStr`, `strDrop`, `replaceFirst`), and `a.localeCompare b` by
  code-point comparison (`strLe`): the names stored in the tree are plain
  ASCII, where `localeCompare` agrees with code-point order.
-/

namespace Devios

inductive Lang where
  | zh_TW
  | en_US
  deriving DecidableEq

inductive RKind where
  | error
  | success
  | info
  | warning
  | system
  deriving DecidableEq

structure LsEntry where
  name : String
  isDir : Bool
  permissions : String
  owner : String
  group : String
  deriving DecidableEq

/-- One unit of command output.  The source stores a string or a rendered
React node; the ls listing's rendered node is modelled by the data it
displays (`listing`, with the long-format flag). -/
inductive Payload where
  | text (s : String)
  | listing (entries : List LsEntry) (long : Bool)
  deriving DecidableEq

structure CommandResult where
  kind : RKind
  content : Payload
  deriving DecidableEq

def err (s : String) : CommandResult := ⟨.error, .text s⟩

def suc (s : String) : CommandResult := ⟨.success, .text s⟩

def inf (s : String) : CommandResult := ⟨.info, .text s⟩

def warn (s : String) : CommandResult := ⟨.warning, .text s⟩

def sys (s : String) : CommandResult := ⟨.system, .text s⟩

/-- A filesystem node (`FileSystemItem` in the source).  `lastModified`
(a `Date`, presentation-only) is not modelled. -/
inductive FSItem where
  | file (content : List String) (contentEn : Option (List String))
      (permissions owner group : String)
  | directory (children : List (String × FSItem))
      (permissions owner group : String)

def FSItem.permissions : FSItem → String
  | .file _ _ p _ _ => p
  | .directory _ p _ _ => p

def FSItem.owner : FSItem → String
  | .file _ _ _ o _ => o
  | .directory _ _ o _ => o

def FSItem.group : FSItem → String
  | .file _ _ _ _ g => g
  | .directory _ _ _ g => g

def FSItem.isDir : FSItem → Bool
  | .file _ _ _ _ _ => false
  | .directory _ _ _ _ => true

/-! The static filesystem tree (the `fileSystem` constant of the source,
lines 526-1008).  Content arrays are transcribed verbatim; a few that the
theorems revisit are named. -/

def bioTxtContent : List String :=
  ["====== 關於我 ======",
   "我是一名熱衷於前端與全端開發的軟體工程師，擁有豐富的網頁應用開發經驗。",
   "我熱愛創造直覺且美觀的使用者介面，並且重視程式碼品質與使用者體驗。",
   "在工作之外，我也是開源專案的貢獻者，喜歡分享知識並持續學習新技術。",
   "我的GitHub: https://github.com/Thetoicxdude"]

def bioTxtContentEn : List String :=
  ["====== About Me ======",
   "I am a software engineer passionate about frontend and full-stack development, with extensive experience in web application development.",
   "I love creating intuitive and beautiful user interfaces, and I value code quality and user experience.",
   "Outside of work, I am also an open-source contributor, enjoying knowledge sharing and continuously learning new technologies.",
   "My GitHub: https://github.com/Thetoicxdude"]

def terminalPortfolioReadme : List String :=
  ["# 終端機風格個人網站",
   "使用 React 和 TypeScript 建立的終端機風格個人網站",
   "",
   "## 技術",
   "- React",
   "- TypeScript",
   "- Styled-Components",
   "",
   "## 功能",
   "- 互動式命令行介面",
   "- 主題切換",
   "- 響應式設計",
   "",
   "## 連結",
   "https://github.com/Thetoicxdude/terminal-portfolio"]

def githubProfileTxt : List String :=
  ["====== GitHub 資訊 ======",
   "用戶名: Thetoicxdude",
   "個人檔案: https://github.com/Thetoicxdude",
   "儲存庫數量: 11",
   "追蹤者: 0",
   "追蹤中: 1",
   "成就: Pull Shark",
   "",
   "主要專案:",
   "- Ai-transformer",
   "- crowdfunding-platform",
   "- Implicit-sentiment-analysis-model",
   "- Starhub-Server-.github.io",
   "- Zu-discord-bot"]

def aboutDir : FSItem :=
  .directory
    [("bio.txt", .file bioTxtContent (some bioTxtContentEn) "rw-r--r--" "deviser" "users"),
     ("education.txt", .file
        ["====== 教育背景 ======",
         "2019-2023 - 計算機科學學士",
         "主修領域：軟體工程、網頁開發、人工智能"]
        (some
          ["====== Education ======",
           "2019-2023 - Bachelor of Computer Science",
           "Major fields: Software Engineering, Web Development, Artificial Intelligence"])
        "rw-r--r--" "deviser" "users"),
     ("experience.txt", .file
        ["====== 工作經驗 ======",
         "2022-至今 - 高級前端開發者",
         "2020-2022 - 網頁開發實習生",
         "主要職責：開發與維護企業級網頁應用，設計用戶介面，優化前端性能"]
        (some
          ["====== Work Experience ======",
           "2022-Present - Senior Frontend Developer",
           "2020-2022 - Web Development Intern",
           "Main responsibilities: Developing and maintaining enterprise web applications, designing user interfaces, optimizing frontend performance"])
        "rw-r--r--" "deviser" "users")]
    "rwxr-xr-x" "deviser" "users"

def skillsDir : FSItem :=
  .directory
    [("frontend.txt", .file
        ["====== 前端技術 ======",
         "JavaScript/TypeScript ███████████ 95%",
         "React.js            ██████████  90%",
         "Vue.js              ████████    80%",
         "HTML/CSS            ███████████ 95%"]
        (some
          ["====== Frontend Technologies ======",
           "JavaScript/TypeScript ███████████ 95%",
           "React.js            ██████████  90%",
           "Vue.js              ████████    80%",
           "HTML/CSS            ███████████ 95%"])
        "rw-r--r--" "deviser" "users"),
     ("backend.txt", .file
        ["====== 後端技術 ======",
         "Node.js             ████████    80%",
         "Express             ███████     70%",
         "Python              ██████      60%",
         "Database            ████████    80%"]
        (some
          ["====== Backend Technologies ======",
           "Node.js             ████████    80%",
           "Express             ███████     70%",
           "Python              ██████      60%",
           "Database            ████████    80%"])
        "rw-r--r--" "deviser" "users"),
     ("other.txt", .file
        ["====== 其他技能 ======",
         "Git/GitHub          ██████████  90%",
         "Discord Bots        ████████    80%",
         "AI & ML             █████████   85%",
         "Linux               █████████   85%"]
        (some
          ["====== Other Skills ======",
           "Git/GitHub          ██████████  90%",
           "Discord Bots        ████████    80%",
           "AI & ML             █████████   85%",
           "Linux               █████████   85%"])
        "rw-r--r--" "deviser" "users")]
    "rwxr-xr-x" "deviser" "users"

def projectsDir : FSItem :=
  .directory
    [("terminal-portfolio", .directory
        [("README.md", .file terminalPortfolioReadme none "rw-r--r--" "deviser" "users")]
        "rwxr-xr-x" "deviser" "users"),
     ("ai-transformer", .directory
        [("README.md", .file
            ["# AI Transformer",
             "實現和研究的Transformer模型專案",
             "",
             "## 技術",
             "- Python",
             "- PyTorch",
             "- 自然語言處理",
             "",
             "## 功能",
             "- 實現transformer架構",
             "- 文本處理與分析",
             "- 模型訓練與評估",
             "",
             "## 連結",
             "https://github.com/Thetoicxdude/Ai-transformer"]
            none "rw-r--r--" "deviser" "users")]
        "rwxr-xr-x" "deviser" "users"),
     ("crowdfunding-platform", .directory
        [("README.md", .file
            ["# 眾籌平台",
             "現代化的眾籌網站平台",
             "",
             "## 技術",
             "- JavaScript",
             "- React",
             "- Node.js",
             "- 支付整合",
             "",
             "## 功能",
             "- 專案創建與展示",
             "- 支付系統整合",
             "- 用戶認證",
             "- 專案管理儀表板",
             "",
             "## 連結",
             "https://github.com/Thetoicxdude/crowdfunding-platform"]
            none "rw-r--r--" "deviser" "users")]
        "rwxr-xr-x" "deviser" "users"),
     ("implicit-sentiment-analysis", .directory
        [("README.md", .file
            ["# 隱含情感分析模型",
             "用於分析文本中隱含情感的AI模型",
             "",
             "## 技術",
             "- Python",
             "- 機器學習",
             "- 自然語言處理",
             "- 深度學習",
             "",
             "## 功能",
             "- 情感分析",
             "- 文本分類",
             "- 隱含情感檢測",
             "",
             "## 連結",
             "https://github.com/Thetoicxdude/Implicit-sentiment-analysis-model"]
            none "rw-r--r--" "deviser" "users")]
        "rwxr-xr-x" "deviser" "users"),
     ("starhub-server", .directory
        [("README.md", .file
            ["# Starhub Server",
             "使用GitHub Pages建立的網站專案",
             "",
             "## 技術",
             "- HTML",
             "- CSS",
             "- JavaScript",
             "- GitHub Pages",
             "",
             "## 功能",
             "- 靜態網站展示",
             "- 資訊頁面",
             "- 響應式設計",
             "",
             "## 連結",
             "https://github.com/Thetoicxdude/Starhub-Server-.github.io"]
            none "rw-r--r--" "deviser" "users")]
        "rwxr-xr-x" "deviser" "users"),
     ("zu-discord-bot", .directory
        [("README.md", .file
            ["# Zu Discord Bot",
             "Discord聊天機器人專案",
             "",
             "## 技術",
             "- JavaScript/TypeScript",
             "- Discord.js",
             "- Node.js",
             "",
             "## 功能",
             "- 聊天指令處理",
             "- 自動化任務",
             "- 互動式回應",
             "- 音樂播放與管理",
             "",
             "## 連結",
             "https://github.com/Thetoicxdude/Zu-discord-bot"]
            none "rw-r--r--" "deviser" "users")]
        "rwxr-xr-x" "deviser" "users")]
    "rwxr-xr-x" "deviser" "users"

def contactDir : FSItem :=
  .directory
    [("info.txt", .file
        ["====== 聯絡方式 ======",
         "📧 Email: yourname@example.com",
         "💼 LinkedIn: linkedin.com/in/yourprofile",
         "🐱 GitHub: https://github.com/Thetoicxdude",
         "🐦 Twitter: @yourhandle"]
        (some
          ["====== Contact Information ======",
           "📧 Email: yourname@example.com",
           "💼 LinkedIn: linkedin.com/in/yourprofile",
           "🐱 GitHub: https://github.com/Thetoicxdude",
           "🐦 Twitter: @yourhandle"])
        "rw-r--r--" "deviser" "users"),
     ("social.txt", .file
        ["====== 社交媒體 ======",
         "Instagram: @yourhandle",
         "Facebook: yourname",
         "Discord: yourname#1234"]
        (some
          ["====== Social Media ======",
           "Instagram: @yourhandle",
           "Facebook: yourname",
           "Discord: yourname#1234"])
        "rw-r--r--" "deviser" "users")]
    "rwxr-xr-x" "deviser" "users"

def dotGithubDir : FSItem :=
  .directory
    [("profile.txt", .file githubProfileTxt none "rw-r--r--" "deviser" "users"),
     ("stats.txt", .file
        ["====== GitHub 統計 ======",
         "主要語言: JavaScript, Python, HTML, TypeScript",
         "貢獻統計: 活躍貢獻者",
         "星標專案: 4",
         "",
         "最近活動:",
         "- 專案更新",
         "- 提交代碼",
         "- Fork了開源專案"]
        none "rw-r--r--" "deviser" "users")]
    "rwxr-xr-x" "deviser" "users"

def rootDir : FSItem :=
  .directory
    [("about", aboutDir),
     ("skills", skillsDir),
     ("projects", projectsDir),
     ("contact", contactDir),
     (".github", dotGithubDir),
     ("resume.pdf", .file ["[PDF 文件內容 - 顯示為二進制]"] none "rw-r--r--" "deviser" "users"),
     (".bashrc", .file
        ["# .bashrc",
         "PS1=\"\\[\\033[01;32m\\]\\u@\\h\\[\\033[00m\\]:\\[\\033[01;34m\\]\\w\\[\\033[00m\\]\\$ \"",
         "alias ll=\"ls -la\"",
         "alias la=\"ls -a\"",
         "alias l=\"ls -CF\"",
         "alias gh=\"cd ~/.github\""]
        none "rw-r--r--" "deviser" "users")]
    "rwxr-xr-x" "deviser" "users"

/-- The `fileSystem` constant: a record mapping the root sentinel name to
the root directory. -/
def fileSystem : List (String × FSItem) := [("~", rootDir)]

/-- One entry of `outputHistory`: the echoed command and its result
records. -/
structure OutputEntry where
  command : String
  result : List CommandResult
  deriving DecidableEq

/-- The React state of the `Terminal` component (the `useState` hooks the
command engine reads or writes).  `fs` is the `fileSystem` constant: the
source declares it as a `const` with no setter, so holding it in the state
makes "no handler ever replaces the tree" a provable frame property
rather than a typing accident.  `now` stands for the wall clock readings
(`new Date()...` strings) used by `date` / `uname -a` and scheduled
messages. -/
structure State where
  language : Lang
  userName : String
  hostName : String
  currentDirectory : String
  isRoot : Bool
  groups : List String
  passwordAttempts : Nat
  isSudoPrompt : Bool
  sudoCommand : String
  isFullFeatured : Bool
  previousDirectory : Option String
  outputHistory : List OutputEntry
  isRickRolling : Bool
  isBooting : Bool
  bootStage : Nat
  fs : List (String × FSItem)
  now : String

/-! ### JavaScript string primitives, modelled structurally over the
character list so that concrete runs reduce inside the kernel (the core
library versions use well-founded recursion) -/

/-- `s.split(sep)` with a single-character separator (the dispatcher
splits on a space, the path code on a slash): consecutive separators
yield empty pieces, the empty string yields one empty piece. -/
def splitChars (sep : Char) : List Char → List (List Char)
  | [] => [[]]
  | c :: rest =>
    let r := splitChars sep rest
    if c = sep then [] :: r
    else
      match r with
      | [] => [[c]]
      | h :: t => (c :: h) :: t

def jsSplit (s : String) (sep : Char) : List String :=
  (splitChars sep s.data).map String.mk

def containsChar (s : String) (c : Char) : Bool := s.data.contains c

def strStartsWith (s pre : String) : Bool := pre.data.isPrefixOf s.data

def charToLower (c : Char) : Char :=
  if 'A' ≤ c ∧ c ≤ 'Z' then Char.ofNat (c.toNat + 32) else c

/-- `toLowerCase`, on the ASCII range the command names use. -/
def toLowerStr (s : String) : String := ⟨s.data.map charToLower⟩

/-- `s.substring(n)` (the paths involved are ASCII). -/
def strDrop (s : String) (n : Nat) : String := ⟨s.data.drop n⟩

/-- JavaScript `String.prototype.replace` with a plain-string pattern:
first occurrence only. -/
def replaceFirstAux (pat rep : List Char) : List Char → List Char
  | [] => []
  | c :: rest =>
    if pat.isPrefixOf (c :: rest) then rep ++ (c :: rest).drop pat.length
    else c :: replaceFirstAux pat rep rest

def replaceFirst (s pat rep : String) : String :=
  ⟨replaceFirstAux pat.data rep.data s.data⟩

/-! ### Filesystem access helpers -/

/-- JavaScript object-key lookup on a record (insertion-ordered). -/
def findChild : List (String × FSItem) → String → Option FSItem
  | [], _ => none
  | (k, v) :: rest, n => if k = n then some v else findChild rest n

/-- The walk of `getCurrentDirectoryContent`: each step indexes the
current record by the segment (skipping empty segments) and requires a
directory to continue. -/
def walkDirs : List (String × FSItem) → List String → Option (List (String × FSItem))
  | m, [] => some m
  | m, d :: rest =>
    if d = "" then walkDirs m rest
    else
      match findChild m d with
      | some (.directory ch _ _ _) => walkDirs ch rest
      | _ => none

def getCurrentDirectoryContent (s : State) : Option (List (String × FSItem)) :=
  let path := if s.currentDirectory = "~" then ["~"] else jsSplit s.currentDirectory '/'
  walkDirs s.fs path

/-- The value `current` ranges over inside `getFileSystemItem` /
`getDirectoryFromPath`: the raw `fileSystem` record (a plain object with
no `.content` field), a node, or JavaScript `undefined` (when
`fileSystem` has no root key). -/
inductive Cur where
  | rootMap (m : List (String × FSItem))
  | node (it : FSItem)
  | undef

/-- A truthy value those two functions can return: a node, or the raw
record object itself (reached by a path with no nonempty segments that
does not start with `~`). -/
inductive GD where
  | item (it : FSItem)
  | rawMap (m : List (String × FSItem))

/-- `current.content[part]`: accessing `.content` of `undefined` or of the
raw record throws a TypeError (`Except.error`); on a file node `.content`
is the string array, whose named properties are `undefined` (numeric
string indices are not modelled — no reachable call uses them). -/
def curChild : Cur → String → Except Unit (Option FSItem)
  | .undef, _ => .error ()
  | .rootMap _, _ => .error ()
  | .node (.file _ _ _ _ _), _ => .ok none
  | .node (.directory ch _ _ _), n => .ok (findChild ch n)

/-- The loop of `getFileSystemItem`: intermediate segments must resolve to
directories; the final segment is returned as found (file or directory);
with no segments left the accumulated `current` itself is returned. -/
def fsWalk : Cur → List String → Except Unit (Option GD)
  | .undef, [] => .ok none
  | .rootMap m, [] => .ok (some (.rawMap m))
  | .node it, [] => .ok (some (.item it))
  | cur, [p] =>
    match curChild cur p with
    | .error _ => .error ()
    | .ok none => .ok none
    | .ok (some it) => .ok (some (.item it))
  | cur, p :: rest =>
    match curChild cur p with
    | .error _ => .error ()
    | .ok (some (.directory ch pm o g)) => fsWalk (.node (.directory ch pm o g)) rest
    | .ok _ => .ok none

def getFileSystemItem (s : State) (filePath : String) : Except Unit (Option GD) :=
  let isAbsolutePath := strStartsWith filePath "/"
  let normalizedPath :=
    if isAbsolutePath then strDrop filePath 1
    else if s.currentDirectory = "~" then filePath
    else (strDrop s.currentDirectory 2) ++ "/" ++ filePath
  let parts := (jsSplit normalizedPath '/').filter (fun p => p ≠ "")
  if strStartsWith normalizedPath "~" then
    let cur : Cur :=
      match findChild s.fs "~" with
      | some it => .node it
      | none => .undef
    fsWalk cur (parts.drop 1)
  else
    fsWalk (.rootMap s.fs) parts

/-- The loop of `getDirectoryFromPath`: every segment, the last included,
must resolve to a directory to continue; the accumulated `current` is
returned after the loop. -/
def dirWalk : Cur → List String → Except Unit (Option GD)
  | .undef, [] => .ok none
  | .rootMap m, [] => .ok (some (.rawMap m))
  | .node it, [] => .ok (some (.item it))
  | cur, p :: rest =>
    match curChild cur p with
    | .error _ => .error ()
    | .ok (some (.directory ch pm o g)) => dirWalk (.node (.directory ch pm o g)) rest
    | .ok _ => .ok none

def getDirectoryFromPath (s : State) (dirPath : String) : Except Unit (Option GD) :=
  if dirPath = "~" then .ok ((findChild s.fs "~").map GD.item)
  else
    let parts := (jsSplit dirPath '/').filter (fun p => p ≠ "")
    if strStartsWith dirPath "~" then
      let cur : Cur :=
        match findChild s.fs "~" with
        | some it => .node it
        | none => .undef
      dirWalk cur (parts.drop 1)
    else
      dirWalk (.rootMap s.fs) parts

/-- The walk of `getFileContent`: intermediate segments must be
directories; the final segment is looked up as-is. -/
def fileWalk : List (String × FSItem) → List String → Option FSItem
  | _, [] => none
  | m, [p] => findChild m p
  | m, p :: rest =>
    match findChild m p with
    | some (.directory ch _ _ _) => fileWalk ch rest
    | _ => none

/-- The node `getFileContent` reaches before its locale selection.  The
walk starts at `fileSystem['~'].content` (a TypeError if the root key
were absent). -/
def getFileNode (s : State) (filePath : String) : Except Unit (Option FSItem) :=
  match findChild s.fs "~" with
  | none => .error ()
  | some root =>
    let start : List (String × FSItem) :=
      match root with
      | .directory ch _ _ _ => ch
      | .file _ _ _ _ _ => []
    let isAbsolutePath := strStartsWith filePath "/"
    let normalizedPath :=
      if isAbsolutePath then strDrop filePath 1
      else if s.currentDirectory = "~" then filePath
      else (strDrop s.currentDirectory 2) ++ "/" ++ filePath
    let parts := (jsSplit normalizedPath '/').filter (fun p => p ≠ "")
    .ok (fileWalk start parts)

/-- `getFileContent`: per-locale content selection — the English variant
is returned only when the language is `en_US` and the file carries one
(JavaScript truthiness: any present array, empty included, is truthy). -/
def getFileContent (s : State) (filePath : String) : Except Unit (Option (List String)) :=
  match getFileNode s filePath with
  | .error _ => .error ()
  | .ok (some (.file content contentEn _ _ _)) =>
    .ok (some
      (if s.language = .en_US then
        match contentEn with
        | some en => en
        | none => content
      else content))
  | .ok _ => .ok none

/-! ### Permission evaluator -/

inductive AccessKind where
  | read
  | write
  | execute

/-- `checkPermission`: privileged actor always allowed; otherwise the
index into the 9-character permission string is chosen by identity match
(owner column, else group column, else other column) plus the fixed
offset of the access kind; a missing character (JavaScript `undefined`)
compares unequal to the dash and therefore allows. -/
def checkPermission (s : State) (item : FSItem) (kind : AccessKind) : Bool :=
  if s.isRoot then true
  else
    let isOwner := item.owner = s.userName
    let isInGroup := s.groups.contains item.group
    let permIndex : Nat :=
      match kind with
      | .read => if isOwner then 0 else if isInGroup then 3 else 6
      | .write => if isOwner then 1 else if isInGroup then 4 else 7
      | .execute => if isOwner then 2 else if isInGroup then 5 else 8
    item.permissions.toList.get? permIndex != some '-'

/-- `checkPermission` as invoked on the result of `getDirectoryFromPath`
cast to `DirectoryItem`: on `null` or on the raw record the privileged
short-circuit still returns true, but the unprivileged path dereferences
a missing `permissions` string and throws. -/
def checkPermissionGD (s : State) (g : Option GD) (kind : AccessKind) : Except Unit Bool :=
  match g with
  | some (.item it) => .ok (checkPermission s it kind)
  | some (.rawMap _) => if s.isRoot then .ok true else .error ()
  | none => if s.isRoot then .ok true else .error ()

/-! ### Localised text resources (the `textResources` keys `getText` is
called with from `processCommand`) -/

def getText (lang : Lang) (key : String) : String :=
  let zh := lang = Lang.zh_TW
  if key = "help_title" then if zh then "=== 可用命令列表 ===" else "=== Available Commands ==="
  else if key = "help_ls" then if zh then "ls          - 列出當前目錄內容" else "ls          - List directory contents"
  else if key = "help_cd" then if zh then "cd [目錄]    - 切換目錄" else "cd [dir]    - Change directory"
  else if key = "help_cat" then if zh then "cat [檔案]   - 顯示檔案內容" else "cat [file]  - Display file contents"
  else if key = "help_pwd" then if zh then "pwd         - 顯示當前路徑" else "pwd         - Print working directory"
  else if key = "help_whoami" then if zh then "whoami      - 顯示當前使用者" else "whoami      - Display current user"
  else if key = "help_date" then if zh then "date        - 顯示當前日期" else "date        - Display current date"
  else if key = "help_man" then if zh then "man [命令]   - 顯示命令說明" else "man [cmd]   - Display command manual"
  else if key = "help_echo" then if zh then "echo [文字]  - 顯示文字" else "echo [text] - Display text"
  else if key = "help_uname" then if zh then "uname       - 顯示系統資訊" else "uname       - Display system info"
  else if key = "help_find" then if zh then "find        - 搜尋檔案或目錄" else "find        - Search files or directories"
  else if key = "help_mkdir" then if zh then "mkdir       - 建立目錄" else "mkdir       - Create directory"
  else if key = "help_github" then if zh then "github      - 顯示GitHub資訊" else "github      - Display GitHub info"
  else if key = "help_theme" then if zh then "theme       - 切換亮色/暗色主題" else "theme       - Toggle light/dark theme"
  else if key = "help_lang" then if zh then "lang        - 切換語言 (中文/英文)" else "lang        - Change language (Chinese/English)"
  else if key = "help_clear" then if zh then "clear       - 清除畫面" else "clear       - Clear screen"
  else if key = "help_exit" then if zh then "exit        - 離開終端機" else "exit        - Exit terminal"
  else if key = "help_shortcuts" then if zh then "鍵盤快捷鍵:" else "Keyboard shortcuts:"
  else if key = "help_ctrl_c" then if zh then "Ctrl+C        - 中斷當前命令" else "Ctrl+C        - Interrupt current command"
  else if key = "help_ctrl_l" then if zh then "Ctrl+L        - 清除畫面" else "Ctrl+L        - Clear screen"
  else if key = "help_ctrl_d" then if zh then "Ctrl+D        - 登出 (當輸入為空時)" else "Ctrl+D        - Logout (when input is empty)"
  else if key = "help_ctrl_u" then if zh then "Ctrl+U        - 清除當前輸入行" else "Ctrl+U        - Clear current input line"
  else if key = "help_tab" then if zh then "Tab           - 自動完成命令" else "Tab           - Auto-complete command"
  else if key = "help_arrows" then if zh then "↑/↓           - 瀏覽命令歷史記錄" else "↑/↓           - Browse command history"
  else if key = "err_cmd_not_found" then if zh then "命令未找到，輸入 \"help\" 查看可用命令" else "Command not found, type \"help\" to see available commands"
  else if key = "err_invalid_option" then if zh then "無效的選項" else "Invalid option"
  else if key = "nav_switch_to_dir" then if zh then "切換到 $1 目錄查看更多資訊" else "Switch to $1 directory to see more information"
  else if key = "nav_use_cd" then if zh then "使用 \"cd $1\" 命令" else "Use \"cd $1\" command"
  else if key = "nav_use_ls" then if zh then "請使用 \"ls\" 查看可用檔案，並使用 \"cat [檔案名]\" 閱讀內容" else "Please use \"ls\" to see available files, and \"cat [filename]\" to read content"
  else if key = "nav_example" then if zh then "例如: $1" else "Example: $1"
  else if key = "sys_logout" then "logout"
  else if key = "sys_goodbye" then if zh then "感謝使用終端機風格個人網站，再見！" else "Thank you for using terminal-style portfolio website. Goodbye!"
  else if key = "sys_theme_changed" then if zh then "主題已切換" else "Theme changed"
  else key

/-- `getText` with one `$1` parameter substituted. -/
def getTextP (lang : Lang) (key param : String) : String :=
  replaceFirst (getText lang key) "$1" param

/-! ### Directory listing pipeline (the `ls` handler) -/

def hiddenFolders : List String := ["about", "skills", "projects", "contact", ".github"]

def entryIsDir (m : List (String × FSItem)) (n : String) : Bool :=
  match findChild m n with
  | some it => it.isDir
  | none => false

/-- Lexicographic code-point comparison of character lists (`a` sorts no
later than `b`). -/
def charListLe : List Char → List Char → Bool
  | [], _ => true
  | _ :: _, [] => false
  | a :: as, b :: bs => if a = b then charListLe as bs else decide (a < b)

/-- `a.localeCompare(b) <= 0`, modelled as code-point lexicographic
comparison (the tree's names are plain ASCII; `localeCompare` itself is
locale-dependent). -/
def strLe (a b : String) : Bool := charListLe a.data b.data

/-- The order induced by the `ls` comparator: directories strictly before
files, and inside each class the name comparison. -/
def lsLE (m : List (String × FSItem)) (a b : String) : Prop :=
  (entryIsDir m a = true ∧ entryIsDir m b = false) ∨
  (entryIsDir m a = entryIsDir m b ∧ strLe a b = true)

instance (m : List (String × FSItem)) : DecidableRel (lsLE m) := fun a b =>
  inferInstanceAs (Decidable ((entryIsDir m a = true ∧ entryIsDir m b = false) ∨
    (entryIsDir m a = entryIsDir m b ∧ strLe a b = true)))

/-- The names `ls` displays, in display order: keys of the directory,
hidden names dropped unless `-a`, the gated folders dropped while the
session is not full-featured, then sorted directories-before-files and
lexicographically. -/
def lsItems (m : List (String × FSItem)) (showHidden isFullFeatured : Bool) : List String :=
  let items := m.map Prod.fst
  let items := if showHidden then items else items.filter (fun it => !(strStartsWith it "."))
  let items := if isFullFeatured then items else items.filter (fun it => !(hiddenFolders.contains it))
  List.insertionSort (lsLE m) items

def lsEntries (m : List (String × FSItem)) (items : List String) : List LsEntry :=
  items.map fun n =>
    match findChild m n with
    | some it => ⟨n, it.isDir, it.permissions, it.owner, it.group⟩
    | none => ⟨n, false, "", "", ""⟩

/-! ### Scheduled (timer-driven) steps -/

/-- A `setTimeout` / `setInterval` callback queued by a handler, with the
closure values it captured. -/
inductive Sched where
  | rickProgress (percent : Nat) (path : String)
  | rickPermErrors
  | rickDeletedFiles
  | rickDeletedDirs
  | rickComplete
  | rickWarning
  | rickStart
  | rickEnd (userName hostName : String)
  | clearScreen
  | langReset (lang : Lang)
  | devBootMsg (lang : Lang) (i : Nat)
  | devBootSuccess
  | devBootFinish
  | devBootWelcome (lang : Lang)
  | downloadTick (lang : Lang) (p : Nat)
  | downloadDone (lang : Lang)

/-- Append records to the result list of the last `outputHistory` entry,
as the scheduled callbacks do; no entry, no change. -/
def appendToLast (h : List OutputEntry) (rs : List CommandResult) : List OutputEntry :=
  match h.getLast? with
  | none => h
  | some e => h.dropLast ++ [{ e with result := e.result ++ rs }]

/-- Replace the result list of the last `outputHistory` entry (the
download-progress callbacks assign rather than append). -/
def replaceLast (h : List OutputEntry) (rs : List CommandResult) : List OutputEntry :=
  match h.getLast? with
  | none => h
  | some e => h.dropLast ++ [{ e with result := rs }]

def bootMessages : List (String × String) :=
  [("正在初始化系統核心 [v1.0.0]...", "Initializing system kernel [v1.0.0]..."),
   ("載入核心模組... [OK]", "Loading kernel modules... [OK]"),
   ("檢查系統依賴關係... [OK]", "Checking system dependencies... [OK]"),
   ("載入使用者設定檔 [deviser]... [OK]", "Loading user profile [deviser]... [OK]"),
   ("系統已就緒! 啟動完成。", "System ready! Boot complete.")]

def bootMessageText (lang : Lang) (i : Nat) : String :=
  match bootMessages.get? i with
  | some p => match lang with | .zh_TW => p.1 | .en_US => p.2
  | none => ""

/-- `[${'='.repeat(p/10)}${' '.repeat(10-p/10)}] ${p}%`. -/
def progressBar (p : Nat) : String :=
  "[" ++ String.join (List.replicate (p / 10) "=") ++
    String.join (List.replicate (10 - p / 10) " ") ++ "] " ++ toString p ++ "%"

def applySched (s : State) (sc : Sched) : State :=
  match sc with
  | .rickProgress percent path =>
    { s with outputHistory :=
        appendToLast s.outputHistory [sys ("已處理 " ++ toString percent ++ "%: " ++ path)] }
  | .rickPermErrors =>
    { s with outputHistory :=
        (appendToLast s.outputHistory
          [err "rm: 無法刪除 '/var/lib/dpkg': 權限不足",
           err "rm: 無法移除 '/etc/passwd': 操作不允許",
           err "rm: 無法刪除 '/boot': 設備或資源忙碌中"]) }
  | .rickDeletedFiles =>
    { s with outputHistory := appendToLast s.outputHistory [sys "已刪除 784 個檔案 (佔用 1.2GB)"] }
  | .rickDeletedDirs =>
    { s with outputHistory := appendToLast s.outputHistory [sys "已刪除 46 個目錄"] }
  | .rickComplete =>
    { s with outputHistory :=
        (appendToLast s.outputHistory
          [suc "操作已完成，用時 5.72 秒", sys "已跳過 3 個無法訪問的檔案"]) }
  | .rickWarning =>
    { s with outputHistory :=
        (appendToLast s.outputHistory
          [sys "-------------------------------",
           sys ("[" ++ s.now ++ "] kernel: [警告] 檢測到潛在的系統破壞嘗試"),
           err "警告: 系統檢測到危險操作！",
           warn "systemd-guard[1234]: 防護機制已啟動，進程ID 5678",
           sys ("[" ++ s.now ++ "] kernel: 正在還原系統檔案..."),
           err "systemd[1]: 錯誤：已阻止刪除系統關鍵檔案",
           sys "bash: 正在載入防護措施...",
           warn "安全模組啟動：你已被 Rick Roll 了！"]) }
  | .rickStart => { s with isRickRolling := true }
  | .rickEnd userName hostName =>
    { s with
      isRickRolling := false
      outputHistory := (s.outputHistory ++
        [⟨"", [sys ("[防護系統] " ++ userName ++ "@" ++ hostName ++ ": 快照還原完成。"),
               inf ("所有檔案已從時間點 " ++ s.now ++ " 還原。"),
               warn "下次請小心使用危險命令！系統管理員已被通知。",
               suc "防護模組：哈哈，你的檔案沒有真的被刪除。感謝使用 DeviOS 安全防護！"]⟩]) }
  | .clearScreen => { s with outputHistory := [] }
  | .langReset lang =>
    { s with outputHistory :=
        ([⟨"", if lang = .en_US then
            [sys "Language changed to English", inf "Type \"help\" to see available commands."]
          else
            [sys "語言已切換為中文", inf "輸入 \"help\" 查看可用命令"]⟩]) }
  | .devBootMsg lang i =>
    { s with outputHistory := appendToLast s.outputHistory [sys (bootMessageText lang i)] }
  | .devBootSuccess =>
    { s with outputHistory := appendToLast s.outputHistory [suc "deviser 服務已啟動！"] }
  | .devBootFinish => { s with outputHistory := [], isBooting := false }
  | .devBootWelcome lang =>
    { s with outputHistory :=
        ([⟨"", [suc (if lang = .zh_TW then
            "✓ deviser 服務已成功啟動！輸入 \"help\" 查看可用命令。"
          else
            "✓ deviser service started successfully! Type \"help\" to see available commands.")]⟩]) }
  | .downloadTick lang p =>
    { s with outputHistory :=
        (replaceLast s.outputHistory
          [sys (if lang = .zh_TW then "正在下載 resume.pdf..." else "Downloading resume.pdf..."),
           sys (progressBar p)]) }
  | .downloadDone lang =>
    { s with outputHistory :=
        (appendToLast s.outputHistory
          [suc (if lang = .zh_TW then "下載完成！檔案已儲存至您的系統。"
                else "Download complete! File saved to your system."),
           sys (if lang = .zh_TW then "[PDF 文件內容 - 顯示為二進制]"
                else "[PDF content - displayed as binary]")]) }

/-! ### The command dispatcher -/

/-- What one `processCommand` call produces: the pending state after its
`setX` calls, the timer callbacks it queued, and its return value —
`none` when the call threw instead of returning. -/
structure Outcome where
  state : State
  sched : List Sched
  results : Option (List CommandResult)

/-- `language === 'zh_TW' ? a : b`. -/
def zhEn (lang : Lang) (a b : String) : String :=
  if lang = .zh_TW then a else b

def rickPaths : List String :=
  ["/home/deviser/Documents", "/home/deviser/Pictures", "/home/deviser/Downloads",
   "/home/deviser/.config", "/home/deviser/.local/share", "/var/log", "/etc/apt"]

/-- The decoy-deletion choreography `rickRoll` queues: one progress line
per path (`Math.floor((i / paths.length) * 100)` percent), the permission
errors, the two deletion summaries, the completion lines, the warning
block, the overlay on, the overlay off with the restore entry. -/
def rickRollSched (userName hostName : String) : List Sched :=
  ((List.range rickPaths.length).map fun i =>
    Sched.rickProgress (i * 100 / rickPaths.length) (rickPaths.getD i "")) ++
  [.rickPermErrors, .rickDeletedFiles, .rickDeletedDirs, .rickComplete, .rickWarning,
   .rickStart, .rickEnd userName hostName]

def rickRoll (snap pend : State) : Outcome :=
  { state := pend
    sched := rickRollSched snap.userName snap.hostName
    results := some
      [sys ("[" ++ snap.userName ++ "@" ++ snap.hostName ++ " " ++
        snap.currentDirectory ++ "]# rm -rf /*"),
       suc "正在刪除檔案...請稍候"] }

def basicCommands : List String :=
  ["help", "clear", "echo", "exit", "deviser", "ls", "cd", "cat", "pwd", "whoami",
   "date", "uname", "lang"]

def restrictedFolders : List String := ["about", "skills", "projects", "contact", ".github"]

/-- `deviser start`: flips the feature gate (at most once), renames the
actor, and queues the boot choreography. -/
def deviserStart (snap pend : State) : Outcome :=
  if snap.isFullFeatured then
    ⟨pend, [], some [inf "deviser 服務已經啟動！"]⟩
  else
    { state :=
        { pend with
          isFullFeatured := true
          userName := "deviser"
          isBooting := true
          bootStage := 0
          outputHistory := (pend.outputHistory ++
            [⟨"deviser start", [sys "正在啟動 deviser 服務..."]⟩]) }
      sched := ((List.range bootMessages.length).map fun i =>
          Sched.devBootMsg snap.language i) ++
        [.devBootSuccess, .devBootFinish, .devBootWelcome snap.language]
      results := some [] }

def basicHelpRecords (lang : Lang) : List CommandResult :=
  if lang = .zh_TW then
    [sys "=== 基本命令列表 ===",
     suc "help        - 顯示此幫助信息",
     suc "ls          - 列出當前目錄內容",
     suc "cd [目錄]    - 切換目錄",
     suc "cat [檔案]   - 顯示檔案內容",
     suc "pwd         - 顯示當前路徑",
     suc "whoami      - 顯示當前使用者",
     suc "date        - 顯示當前日期",
     suc "clear       - 清除畫面",
     suc "echo [文字]  - 顯示文字",
     suc "uname       - 顯示系統資訊",
     suc "lang        - 切換語言 (中文/英文)",
     suc "deviser start - 啟動 deviser 服務",
     suc "exit        - 離開終端機",
     inf "提示: 輸入 \"deviser start\" 以啟動 deviser 服務以顯示更多內容"]
  else
    [sys "=== Basic Command List ===",
     suc "help        - Show this help message",
     suc "ls          - List directory contents",
     suc "cd [dir]    - Change directory",
     suc "cat [file]  - Show file contents",
     suc "pwd         - Print working directory",
     suc "whoami      - Show current user",
     suc "date        - Show current date",
     suc "clear       - Clear screen",
     suc "echo [text] - Display text",
     suc "uname       - Display system information",
     suc "lang        - Change language (Chinese/English)",
     suc "deviser start - Start deviser service",
     suc "exit        - Exit terminal",
     inf "Tip: Type \"deviser start\" to start deviser service and see more content"]

def helpRecords (lang : Lang) : List CommandResult :=
  [sys (getText lang "help_title"),
   suc (getText lang "help_ls"),
   suc (getText lang "help_cd"),
   suc (getText lang "help_cat"),
   suc (getText lang "help_pwd"),
   suc (getText lang "help_whoami"),
   suc (getText lang "help_date"),
   suc (getText lang "help_man"),
   suc (getText lang "help_echo"),
   suc (getText lang "help_uname"),
   suc (getText lang "help_find"),
   suc (getText lang "help_mkdir"),
   suc (getText lang "help_github"),
   suc (getText lang "help_theme"),
   suc (getText lang "help_lang"),
   suc (getText lang "help_clear"),
   suc (getText lang "help_exit"),
   inf (getText lang "help_shortcuts"),
   inf (getText lang "help_ctrl_c"),
   inf (getText lang "help_ctrl_l"),
   inf (getText lang "help_ctrl_d"),
   inf (getText lang "help_ctrl_u"),
   inf (getText lang "help_tab"),
   inf (getText lang "help_arrows")]

/-- The `about` / `skills` / `projects` / `contact` section commands. -/
def handleSection (snap pend : State) (name titleZh titleEn sample : String) : Outcome :=
  if snap.currentDirectory ≠ "~/" ++ name then
    ⟨pend, [], some
      [inf (getTextP snap.language "nav_switch_to_dir" name),
       inf (getTextP snap.language "nav_use_cd" name)]⟩
  else
    ⟨pend, [], some
      [inf ("====== " ++ zhEn snap.language titleZh titleEn ++ " ======"),
       suc (getText snap.language "nav_use_ls"),
       suc (getTextP snap.language "nav_example" sample)]⟩

def githubRecords : List CommandResult :=
  [inf "====== GitHub 資訊 ======",
   suc "用戶名: Thetoicxdude",
   suc "個人檔案: https://github.com/Thetoicxdude",
   suc "儲存庫數量: 11",
   suc "成就: Pull Shark",
   suc "主要專案:",
   suc "- Ai-transformer: AI 模型研究",
   suc "- crowdfunding-platform: 眾籌平台",
   suc "- Implicit-sentiment-analysis-model: 情感分析",
   suc "- Zu-discord-bot: Discord 機器人",
   sys "可以使用 \"cd .github\" 和 \"cat profile.txt\" 查看更多資訊"]

def lsHelpRecords (lang : Lang) : List CommandResult :=
  [sys (zhEn lang "LS(1)                   用戶命令                   LS(1)"
                  "LS(1)                 User Commands                 LS(1)"),
   sys (zhEn lang "名稱" "NAME"),
   suc (zhEn lang "       ls - 列出目錄內容" "       ls - list directory contents"),
   sys (zhEn lang "簡介" "SYNOPSIS"),
   suc (zhEn lang "       ls [選項]... [檔案]..." "       ls [OPTION]... [FILE]..."),
   sys (zhEn lang "描述" "DESCRIPTION"),
   suc (zhEn lang "       列出指定檔案的資訊（預設為目前的目錄）。"
                  "       List information about the FILEs (the current directory by default)."),
   suc (zhEn lang "       如果沒有選項，則會以字母順序排列項目。"
                  "       Sort entries alphabetically if none of -cftuvSUX nor --sort is specified."),
   sys (zhEn lang "選項" "OPTIONS"),
   suc (zhEn lang "       -a, --all" "       -a, --all"),
   suc (zhEn lang "              不隱藏以 . 開頭的項目"
                  "              do not ignore entries starting with ."),
   suc (zhEn lang "       -l     使用較長格式列出" "       -l     use a long listing format"),
   inf (zhEn lang "按 q 離開" "Press q to exit")]

/-- The `ls` handler.  (The source tests emptiness of the filtered names
before sorting; sorting preserves emptiness, so the sorted list is tested
here.) -/
def handleLs (snap pend : State) (args : List String) : Outcome :=
  match getCurrentDirectoryContent snap with
  | none => ⟨pend, [], some [err ("無法獲取目錄內容: " ++ snap.currentDirectory)]⟩
  | some m =>
    if args.contains "--help" then ⟨pend, [], some (lsHelpRecords snap.language)⟩
    else
      let showHidden := args.contains "-a" || args.contains "-la" || args.contains "-al"
      let showDetails := args.contains "-l" || args.contains "-la" || args.contains "-al"
      let items := lsItems m showHidden snap.isFullFeatured
      if items.isEmpty then ⟨pend, [], some [suc ""]⟩
      else ⟨pend, [], some [⟨.success, .listing (lsEntries m items) showDetails⟩]⟩

def handleCd (snap pend : State) (args : List String) : Outcome :=
  if args.length = 0 then ⟨{ pend with currentDirectory := "~" }, [], some []⟩
  else
    let target := args.headD ""
    if !snap.isFullFeatured && restrictedFolders.contains target then
      ⟨pend, [], some [err (zhEn snap.language ("cd: " ++ target ++ ": 沒有此目錄")
        ("cd: " ++ target ++ ": No such directory"))]⟩
    else if target = ".." then
      if snap.currentDirectory = "~" then ⟨pend, [], some []⟩
      else
        let parts := (jsSplit snap.currentDirectory '/').dropLast
        if parts.length = 1 && parts.headD "" = "~" then
          ⟨{ pend with currentDirectory := "~" }, [], some []⟩
        else
          ⟨{ pend with currentDirectory := String.intercalate "/" parts }, [], some []⟩
    else if target = "-" then
      match snap.previousDirectory with
      | none =>
        ⟨pend, [], some [err (zhEn snap.language "cd: 沒有先前的目錄" "cd: no previous directory")]⟩
      | some prev =>
        ⟨{ pend with currentDirectory := prev, previousDirectory := some snap.currentDirectory },
         [], some [sys prev]⟩
    else if strStartsWith target "/" then
      let newPath := if target = "/" then "~" else "~" ++ target
      match getDirectoryFromPath snap newPath with
      | .error _ => ⟨pend, [], none⟩
      | .ok none =>
        ⟨pend, [], some [err (zhEn snap.language ("cd: " ++ target ++ ": 沒有此目錄")
          ("cd: " ++ target ++ ": No such directory"))]⟩
      | .ok (some _) =>
        ⟨{ pend with
            previousDirectory := some snap.currentDirectory
            currentDirectory := newPath }, [], some []⟩
    else
      let newPath :=
        if snap.currentDirectory = "~" then "~/" ++ target
        else snap.currentDirectory ++ "/" ++ target
      match getDirectoryFromPath snap newPath with
      | .error _ => ⟨pend, [], none⟩
      | .ok none =>
        ⟨pend, [], some [err (zhEn snap.language ("cd: " ++ target ++ ": 沒有此目錄")
          ("cd: " ++ target ++ ": No such directory"))]⟩
      | .ok (some _) =>
        ⟨{ pend with
            previousDirectory := some snap.currentDirectory
            currentDirectory := newPath }, [], some []⟩

def handleCat (snap pend : State) (args : List String) : Outcome :=
  if args.length = 0 then
    ⟨pend, [], some [err (zhEn snap.language "cat: 缺少檔案名稱" "cat: missing file name")]⟩
  else
    let a0 := args.headD ""
    if !snap.isFullFeatured && containsChar a0 '/' &&
        restrictedFolders.contains ((jsSplit a0 '/').headD "") then
      ⟨pend, [], some [err (zhEn snap.language ("cat: " ++ a0 ++ ": 檔案不存在")
        ("cat: " ++ a0 ++ ": No such file"))]⟩
    else if a0 = "resume.pdf" then
      ⟨pend,
       ((List.range 10).map fun k => Sched.downloadTick snap.language ((k + 1) * 10)) ++
         [.downloadDone snap.language],
       some [sys (zhEn snap.language "準備下載 resume.pdf..." "Preparing to download resume.pdf..."),
             sys "[          ] 0%"]⟩
    else
      match getFileContent snap a0 with
      | .error _ => ⟨pend, [], none⟩
      | .ok (some lines) => ⟨pend, [], some (lines.map suc)⟩
      | .ok none =>
        ⟨pend, [], some [err (zhEn snap.language ("cat: " ++ a0 ++ ": 檔案不存在")
          ("cat: " ++ a0 ++ ": No such file"))]⟩

def manLsRecords : List CommandResult :=
  [inf "LS(1)                   用戶命令                   LS(1)",
   sys "名稱",
   suc "       ls - 列出目錄內容",
   sys "簡介",
   suc "       ls [選項]... [檔案]...",
   sys "描述",
   suc "       列出指定檔案的資訊（預設為目前的目錄）。",
   suc "       如果沒有選項，則會以字母順序排列項目。",
   sys "選項",
   suc "       -a, --all",
   suc "              不隱藏以 . 開頭的項目",
   suc "       -l     使用較長格式列出",
   inf "按 q 離開"]

def manCdRecords (lang : Lang) : List CommandResult :=
  [inf (zhEn lang "CD(1)                    用戶命令                   CD(1)"
                  "CD(1)                 User Commands                 CD(1)"),
   sys (zhEn lang "名稱" "NAME"),
   suc (zhEn lang "       cd - 變更目錄" "       cd - change directory"),
   sys (zhEn lang "簡介" "SYNOPSIS"),
   suc (zhEn lang "       cd [目錄]" "       cd [directory]"),
   sys (zhEn lang "描述" "DESCRIPTION"),
   suc (zhEn lang "       變更當前工作目錄為指定的目錄。"
                  "       Change the current working directory to the specified directory."),
   suc (zhEn lang "       預設的目錄是 HOME shell 變數的值。"
                  "       The default directory is the value of the HOME shell variable."),
   inf (zhEn lang "按 q 離開" "Press q to exit")]

def handleMan (snap pend : State) (args : List String) : Outcome :=
  if args.length = 0 then ⟨pend, [], some [err "你必須指定一個手冊頁。"]⟩
  else if args.headD "" = "ls" then ⟨pend, [], some manLsRecords⟩
  else if args.headD "" = "cd" then ⟨pend, [], some (manCdRecords snap.language)⟩
  else ⟨pend, [], some [err ("沒有 " ++ args.headD "" ++ " 的手冊頁。")]⟩

def handleRm (snap pend : State) (args : List String) : Outcome :=
  if args.contains "-rf" || args.contains "-fr" ||
      (args.contains "-r" && args.contains "-f") ||
      (args.contains "-f" && args.contains "-r") then
    rickRoll snap pend
  else
    ⟨pend, [], some [err "rm: 危險操作已被系統攔截，請小心使用刪除命令！"]⟩

def handleSudo (snap pend : State) (args : List String) : Outcome :=
  if args.length = 0 then ⟨pend, [], some [err "sudo: 缺少要執行的命令"]⟩
  else
    ⟨{ pend with sudoCommand := String.intercalate " " args, isSudoPrompt := true },
     [], some [sys ("[sudo] " ++ snap.userName ++ " 的密碼:")]⟩

def handleId (snap pend : State) : Outcome :=
  ⟨pend, [], some
    [suc ("uid=" ++ (if snap.isRoot then "0" else "1000") ++ "(" ++
      (if snap.isRoot then "root" else snap.userName) ++ ") gid=1000(" ++
      snap.groups.headD "undefined" ++ ") 群組=" ++ String.intercalate "," snap.groups)]⟩

/-- `chmodTarget.owner` when the target is the raw record is `undefined`
(`none` here), which compares unequal to any user name. -/
def gdOwner : GD → Option String
  | .item it => some it.owner
  | .rawMap _ => none

def handleChmod (snap pend : State) (args : List String) : Outcome :=
  if args.length < 2 then ⟨pend, [], some [err "chmod: 缺少操作數"]⟩
  else
    let targetPath := args.getD 1 ""
    match getFileSystemItem snap targetPath with
    | .error _ => ⟨pend, [], none⟩
    | .ok none => ⟨pend, [], some [err ("chmod: " ++ targetPath ++ ": 檔案不存在")]⟩
    | .ok (some g) =>
      if !snap.isRoot && (gdOwner g != some snap.userName) then
        ⟨pend, [], some [err ("chmod: " ++ targetPath ++ ": 權限不足")]⟩
      else
        ⟨pend, [], some [suc ("已更改 '" ++ targetPath ++ "' 的權限")]⟩

def handleChown (snap pend : State) (args : List String) : Outcome :=
  if args.length < 2 then ⟨pend, [], some [err "chown: 缺少操作數"]⟩
  else
    let owner := args.getD 0 ""
    let chownPath := args.getD 1 ""
    if !snap.isRoot then ⟨pend, [], some [err "chown: 需要系統管理員權限"]⟩
    else
      match getFileSystemItem snap chownPath with
      | .error _ => ⟨pend, [], none⟩
      | .ok none => ⟨pend, [], some [err ("chown: " ++ chownPath ++ ": 檔案不存在")]⟩
      | .ok (some _) =>
        ⟨pend, [], some [suc ("已更改 '" ++ chownPath ++ "' 的所有者為 '" ++ owner ++ "'")]⟩

def handleTouch (snap pend : State) (args : List String) : Outcome :=
  if args.length < 1 then ⟨pend, [], some [err "touch: 缺少檔案操作數"]⟩
  else
    let touchPath := args.headD ""
    match getCurrentDirectoryContent snap with
    | none => ⟨pend, [], some [err ("touch: 無法存取 '" ++ snap.currentDirectory ++ "'")]⟩
    | some _ =>
      if snap.isRoot then ⟨pend, [], some [suc ("已創建 '" ++ touchPath ++ "'")]⟩
      else
        match getDirectoryFromPath snap snap.currentDirectory with
        | .error _ => ⟨pend, [], none⟩
        | .ok g =>
          match checkPermissionGD snap g .write with
          | .error _ => ⟨pend, [], none⟩
          | .ok false => ⟨pend, [], some [err ("touch: " ++ touchPath ++ ": 權限不足")]⟩
          | .ok true => ⟨pend, [], some [suc ("已創建 '" ++ touchPath ++ "'")]⟩

def handleLang (snap pend : State) (args : List String) : Outcome :=
  if args.length = 0 then
    ⟨pend, [], some
      [inf (zhEn snap.language "目前語言：繁體中文" "Current language: English"),
       inf (zhEn snap.language "用法: lang [zh|en]" "Usage: lang [zh|en]")]⟩
  else if toLowerStr (args.headD "") = "en" then
    ⟨{ pend with language := .en_US }, [.langReset .en_US],
     some [sys "Language changed to English"]⟩
  else if toLowerStr (args.headD "") = "zh" then
    ⟨{ pend with language := .zh_TW }, [.langReset .zh_TW],
     some [sys "語言已切換為中文"]⟩
  else
    ⟨pend, [], some
      [err (zhEn snap.language ("無效的選項 -- '" ++ args.headD "" ++ "'")
        ("Invalid option -- '" ++ args.headD "" ++ "'")),
       inf (zhEn snap.language "用法: lang [zh|en]" "Usage: lang [zh|en]")]⟩

/-- The `default:` arm of the dispatcher switch: the invalid-option text
is chosen by whether the raw line contains a hyphen character anywhere. -/
def handleUnknown (snap pend : State) (cmd command : String) (args : List String) : Outcome :=
  if containsChar cmd '-' then
    ⟨pend, [], some [err (command ++ ": " ++ getText snap.language "err_invalid_option" ++
      " -- '" ++ String.intercalate " " args ++ "'")]⟩
  else
    ⟨pend, [], some [err (command ++ ": " ++ getText snap.language "err_cmd_not_found")]⟩

/-- The `switch (command.toLowerCase())` of the source.  The switch
declares `case 'mkdir'` twice (lines 1916 and 2072); JavaScript
dispatches to the first, so `mkdir` always reports the permission error
and the second, permission-checked arm is dead code. -/
def switchCommand (snap pend : State) (cmd command : String) (args : List String) : Outcome :=
  let c := toLowerStr command
  if c = "help" then ⟨pend, [], some (helpRecords snap.language)⟩
  else if c = "about" then handleSection snap pend "about" "關於我" "About Me" "cat bio.txt"
  else if c = "skills" then handleSection snap pend "skills" "技能" "Skills" "cat frontend.txt"
  else if c = "projects" then
    handleSection snap pend "projects" "專案列表" "Project List" "cd terminal-portfolio"
  else if c = "contact" then
    handleSection snap pend "contact" "聯絡方式" "Contact Information" "cat info.txt"
  else if c = "github" then ⟨pend, [], some githubRecords⟩
  else if c = "theme" then
    -- toggleTheme() is a presentation-layer callback with no session state
    ⟨pend, [], some [sys (getText snap.language "sys_theme_changed")]⟩
  else if c = "clear" then ⟨pend, [.clearScreen], some []⟩
  else if c = "ls" then handleLs snap pend args
  else if c = "pwd" then
    ⟨pend, [], some [suc (if snap.currentDirectory = "~" then "/home/" ++ snap.userName
      else "/home/" ++ snap.userName ++ (strDrop snap.currentDirectory 1))]⟩
  else if c = "whoami" then ⟨pend, [], some [suc (if snap.isRoot then "root" else snap.userName)]⟩
  else if c = "date" then ⟨pend, [], some [suc snap.now]⟩
  else if c = "cd" then handleCd snap pend args
  else if c = "cat" then handleCat snap pend args
  else if c = "mkdir" then ⟨pend, [], some [err "mkdir: 權限不足，無法建立目錄"]⟩
  else if c = "find" then
    if args.length = 0 then ⟨pend, [], some [err "find: 缺少路徑和表達式"]⟩
    else ⟨pend, [], some [err "目前尚未支援 find 命令的完整功能"]⟩
  else if c = "man" then handleMan snap pend args
  else if c = "echo" then
    if args.length = 0 then ⟨pend, [], some [suc ""]⟩
    else ⟨pend, [], some [suc (String.intercalate " " args)]⟩
  else if c = "uname" then
    if args.contains "-a" then
      ⟨pend, [], some [suc ("DeviOS 1.0.0 #1 SMP " ++ snap.now ++ " x86_64 Personal Website Terminal")]⟩
    else ⟨pend, [], some [suc "DeviOS"]⟩
  else if c = "exit" || c = "logout" then
    ⟨pend, [], some [sys (getText snap.language "sys_logout"),
      sys (getText snap.language "sys_goodbye")]⟩
  else if c = "rm" then handleRm snap pend args
  else if c = "sudo" then handleSudo snap pend args
  else if c = "id" then handleId snap pend
  else if c = "chmod" then handleChmod snap pend args
  else if c = "chown" then handleChown snap pend args
  else if c = "touch" then handleTouch snap pend args
  else if c = "lang" then handleLang snap pend args
  else handleUnknown snap pend cmd command args

/-- The non-recursive part of `processCommand`: everything after the sudo
password branch. -/
def dispatchCommand (snap pend : State) (cmd : String) : Outcome :=
  if containsChar cmd '|' then ⟨pend, [], some [err "目前尚未支援管道功能 (|)"]⟩
  else if containsChar cmd '>' then ⟨pend, [], some [err "目前尚未支援重定向功能 (> 或 >>)"]⟩
  else if strStartsWith cmd "rm -rf" || strStartsWith cmd "rm -fr" then rickRoll snap pend
  else
    let pieces := jsSplit cmd ' '
    let command := pieces.headD ""
    let args := pieces.tail
    if toLowerStr command = "deviser" && ((args.head?.map toLowerStr) == some "start") then
      deviserStart snap pend
    else if !snap.isFullFeatured && !(basicCommands.contains (toLowerStr command)) &&
        toLowerStr command ≠ "" then
      ⟨pend, [], some
        [err (zhEn snap.language ("未知的命令: " ++ command) ("Unknown command: " ++ command)),
         inf (zhEn snap.language "提示: 輸入 \"deviser start\" 以啟動 deviser 服務"
           "Tip: Type \"deviser start\" to start deviser service"),
         inf (zhEn snap.language "輸入 \"help\" 查看基本命令列表"
           "Type \"help\" to see basic command list")]⟩
    else if !snap.isFullFeatured && toLowerStr command = "help" then
      ⟨pend, [], some (basicHelpRecords snap.language)⟩
    else switchCommand snap pend cmd command args

/-- `processCommand(cmd)`.  Reads come from `snap`, the render snapshot;
writes accumulate on `pend`.  The re-entrant call of the sudo match
branch passes the same snapshot, so inside it `isSudoPrompt` is still
true.  `fuel` is the JavaScript call-stack budget: running out of it
models the stack-overflow exception of unbounded recursion. -/
def processCommand (fuel : Nat) (snap pend : State) (cmd : String) : Outcome :=
  if snap.isSudoPrompt then
    let pend1 := { pend with isSudoPrompt := false }
    if cmd = "password" then
      let pend2 := { pend1 with isRoot := true, sudoCommand := "" }
      match fuel with
      | 0 => ⟨pend2, [], none⟩
      | fuel' + 1 =>
        let o := processCommand fuel' snap pend2 snap.sudoCommand
        { o with results := o.results.map (fun rs => sys "" :: rs) }
    else
      let pend2 := { pend1 with passwordAttempts := pend1.passwordAttempts + 1 }
      if snap.passwordAttempts ≥ 2 then
        ⟨{ pend2 with passwordAttempts := 0, sudoCommand := "" }, [],
         some [err "sudo: 3 次錯誤的密碼嘗試"]⟩
      else ⟨pend2, [], some [err "sudo: 認證失敗"]⟩
  else dispatchCommand snap pend cmd

/-- The browser call-stack budget (a generous bound; only the sudo match
branch recurses, and non-degenerate inputs use depth ≤ 2). -/
def stackLimit : Nat := 10000

/-- One submitted line, as `handleCommandSubmit` dispatches it: snapshot
and pending state start out equal. -/
def runCommand (s : State) (cmd : String) : Outcome :=
  processCommand stackLimit s s cmd

/-- The initial `useState` values of the component. -/
def initialState : State :=
  { language := .zh_TW
    userName := "user"
    hostName := "terminal"
    currentDirectory := "~"
    isRoot := false
    groups := ["users"]
    passwordAttempts := 0
    isSudoPrompt := false
    sudoCommand := ""
    isFullFeatured := false
    previousDirectory := none
    outputHistory := []
    isRickRolling := false
    isBooting := false
    bootStage := bootMessages.length
    fs := fileSystem
    now := "" }

/-- A full-featured session (the state after the feature gate flipped, with
the scheduled boot cosmetics ignored), used by concrete scenarios. -/
def fullState : State := { initialState with isFullFeatured := true }

/-- The command names that are `case`s of the dispatcher switch, plus
`deviser` (handled before the switch): a line whose name is outside this
list reaches the `default:` arm. -/
def knownCommands : List String :=
  ["deviser", "help", "about", "skills", "projects", "contact", "github", "theme",
   "clear", "ls", "pwd", "whoami", "date", "cd", "cat", "mkdir", "find", "man",
   "echo", "uname", "exit", "logout", "rm", "sudo", "id", "chmod", "chown",
   "touch", "lang"]

/-- The Permission Evaluator rule as the specification words it: a
privileged actor is always allowed; otherwise exactly one triplet is
selected first-match-wins (owner column if the actor is the owner, else
group column if the actor's groups contain the node's group, else other
column), and the bit for the requested kind is tested at fixed offsets
0/1/2 inside that three-character triplet. -/
def specCheckPermission (isRoot : Bool) (perms owner group actorName : String)
    (actorGroups : List String) (kind : AccessKind) : Bool :=
  if isRoot then true
  else
    let tripletStart : Nat :=
      if owner = actorName then 0
      else if actorGroups.contains group then 3
      else 6
    let triplet := (perms.toList.drop tripletStart).take 3
    let offset : Nat :=
      match kind with
      | .read => 0
      | .write => 1
      | .execute => 2
    triplet.get? offset != some '-'

theorem charListLe_total (a : List Char) : ∀ b, charListLe a b = true ∨ charListLe b a = true := by
  induction a with
  | nil => intro b; exact Or.inl rfl
  | cons x xs ih =>
    intro b
    cases b with
    | nil => exact Or.inr rfl
    | cons y ys =>
      by_cases hxy : x = y
      · subst hxy
        simpa [charListLe] using ih ys
      · rcases lt_trichotomy x y with h | h | h
        · exact Or.inl (by simp [charListLe, hxy, h])
        · exact absurd h hxy
        · exact Or.inr (by simp [charListLe, Ne.symm hxy, h])

theorem charListLe_trans {a b c : List Char} (h1 : charListLe a b = true)
    (h2 : charListLe b c = true) : charListLe a c = true := by
  induction a generalizing b c with
  | nil => rfl
  | cons x xs ih =>
    cases b with
    | nil => simp [charListLe] at h1
    | cons y ys =>
      cases c with
      | nil => simp [charListLe] at h2
      | cons z zs =>
        by_cases hxy : x = y <;> by_cases hyz : y = z
        · subst hxy; subst hyz
          simp only [charListLe, if_pos rfl] at h1 h2 ⊢
          exact ih h1 h2
        · subst hxy
          simp only [charListLe, if_pos rfl] at h1
          simpa [charListLe, hyz] using h2
        · subst hyz
          simpa [charListLe, hxy] using h1
        · have hx : x < y := by simpa [charListLe, hxy] using h1
          have hy : y < z := by simpa [charListLe, hyz] using h2
          have hxz : x < z := lt_trans hx hy
          simp [charListLe, ne_of_lt hxz, hxz]

instance (m : List (String × FSItem)) : IsTotal String (lsLE m) where
  total := by
    intro a b
    unfold lsLE
    rcases charListLe_total a.data b.data with h | h <;>
      cases ha : entryIsDir m a <;> cases hb : entryIsDir m b
    · exact Or.inl (Or.inr ⟨rfl, h⟩)
    · exact Or.inr (Or.inl ⟨rfl, rfl⟩)
    · exact Or.inl (Or.inl ⟨rfl, rfl⟩)
    · exact Or.inl (Or.inr ⟨rfl, h⟩)
    · exact Or.inr (Or.inr ⟨rfl, h⟩)
    · exact Or.inr (Or.inl ⟨rfl, rfl⟩)
    · exact Or.inl (Or.inl ⟨rfl, rfl⟩)
    · exact Or.inr (Or.inr ⟨rfl, h⟩)

instance (m : List (String × FSItem)) : IsTrans String (lsLE m) where
  trans := by
    intro a b c hab hbc
    unfold lsLE at hab hbc ⊢
    rcases hab with ⟨ha1, hb1⟩ | ⟨hab1, hle1⟩ <;>
      rcases hbc with ⟨hb2, hc2⟩ | ⟨hbc2, hle2⟩
    · exact absurd hb2 (by rw [hb1]; exact Bool.false_ne_true)
    · exact Or.inl ⟨ha1, hbc2 ▸ hb1⟩
    · exact Or.inl ⟨hab1.trans hb2, hc2⟩
    · exact Or.inr ⟨hab1.trans hbc2, charListLe_trans hle1 hle2⟩

/-! ## Frame lemmas: no handler and no scheduled step replaces the tree,
and the feature gate, once set, never reverts -/

/-- Handlers that never write any state: their outcome state is the
pending state unchanged. -/
theorem handleSection_state (snap pend : State) (a b c d : String) :
    (handleSection snap pend a b c d).state = pend := by
  unfold handleSection
  split <;> rfl

theorem handleLs_state (snap pend : State) (args : List String) :
    (handleLs snap pend args).state = pend := by
  unfold handleLs
  repeat' first | split | dsimp only
  all_goals rfl

theorem handleCat_state (snap pend : State) (args : List String) :
    (handleCat snap pend args).state = pend := by
  unfold handleCat
  repeat' first | split | dsimp only
  all_goals rfl

theorem handleMan_state (snap pend : State) (args : List String) :
    (handleMan snap pend args).state = pend := by
  unfold handleMan
  repeat' first | split | dsimp only
  all_goals rfl

theorem handleRm_state (snap pend : State) (args : List String) :
    (handleRm snap pend args).state = pend := by
  unfold handleRm rickRoll
  repeat' first | split | dsimp only
  all_goals rfl

theorem handleId_state (snap pend : State) : (handleId snap pend).state = pend := rfl

theorem handleChmod_state (snap pend : State) (args : List String) :
    (handleChmod snap pend args).state = pend := by
  unfold handleChmod
  repeat' first | split | dsimp only
  all_goals rfl

theorem handleChown_state (snap pend : State) (args : List String) :
    (handleChown snap pend args).state = pend := by
  unfold handleChown
  repeat' first | split | dsimp only
  all_goals rfl

theorem handleTouch_state (snap pend : State) (args : List String) :
    (handleTouch snap pend args).state = pend := by
  unfold handleTouch
  repeat' first | split | dsimp only
  all_goals rfl

theorem handleUnknown_state (snap pend : State) (cmd command : String) (args : List String) :
    (handleUnknown snap pend cmd command args).state = pend := by
  unfold handleUnknown
  split <;> rfl

/-- `cd` writes only the directory fields. -/
theorem handleCd_fs (snap pend : State) (args : List String) :
    (handleCd snap pend args).state.fs = pend.fs := by
  unfold handleCd
  repeat' first | split | dsimp only
  all_goals rfl

theorem handleCd_isFullFeatured (snap pend : State) (args : List String) :
    (handleCd snap pend args).state.isFullFeatured = pend.isFullFeatured := by
  unfold handleCd
  repeat' first | split | dsimp only
  all_goals rfl

theorem handleSudo_fs (snap pend : State) (args : List String) :
    (handleSudo snap pend args).state.fs = pend.fs := by
  unfold handleSudo
  split <;> rfl

theorem handleSudo_isFullFeatured (snap pend : State) (args : List String) :
    (handleSudo snap pend args).state.isFullFeatured = pend.isFullFeatured := by
  unfold handleSudo
  split <;> rfl

theorem handleLang_fs (snap pend : State) (args : List String) :
    (handleLang snap pend args).state.fs = pend.fs := by
  unfold handleLang
  repeat' first | split | dsimp only
  all_goals rfl

theorem handleLang_isFullFeatured (snap pend : State) (args : List String) :
    (handleLang snap pend args).state.isFullFeatured = pend.isFullFeatured := by
  unfold handleLang
  repeat' first | split | dsimp only
  all_goals rfl

theorem deviserStart_fs (snap pend : State) :
    (deviserStart snap pend).state.fs = pend.fs := by
  unfold deviserStart
  split <;> rfl

/-- `deviser start` is the only write to the gate, and it writes `true`. -/
theorem deviserStart_isFullFeatured (snap pend : State) (h : pend.isFullFeatured = true) :
    (deviserStart snap pend).state.isFullFeatured = true := by
  unfold deviserStart
  split
  · exact h
  · rfl

/-- Chain combinator: an if-expression preserves a projection that both
branches preserve (used to walk the dispatcher's if-chain without
splitting the whole goal at once). -/
theorem ite_fs {x : List (String × FSItem)} {c : Prop} [Decidable c] {a b : Outcome}
    (ha : a.state.fs = x) (hb : b.state.fs = x) : (if c then a else b).state.fs = x := by
  by_cases h : c
  · rw [if_pos h]; exact ha
  · rw [if_neg h]; exact hb

theorem ite_full {c : Prop} [Decidable c] {a b : Outcome}
    (ha : a.state.isFullFeatured = true) (hb : b.state.isFullFeatured = true) :
    (if c then a else b).state.isFullFeatured = true := by
  by_cases h : c
  · rw [if_pos h]; exact ha
  · rw [if_neg h]; exact hb

set_option maxRecDepth 8000 in
/-- No case of the dispatcher switch writes the `fs` field. -/
theorem switchCommand_fs (snap pend : State) (cmd command : String) (args : List String) :
    (switchCommand snap pend cmd command args).state.fs = pend.fs := by
  unfold switchCommand
  dsimp only
  repeat' first
    | rfl
    | rw [handleSection_state]
    | rw [handleLs_state]
    | rw [handleCat_state]
    | rw [handleMan_state]
    | rw [handleRm_state]
    | rw [handleId_state]
    | rw [handleChmod_state]
    | rw [handleChown_state]
    | rw [handleTouch_state]
    | rw [handleUnknown_state]
    | exact handleCd_fs snap pend _
    | exact handleSudo_fs snap pend _
    | exact handleLang_fs snap pend _
    | apply ite_fs

set_option maxRecDepth 8000 in
/-- A set feature gate survives every case of the dispatcher switch. -/
theorem switchCommand_isFullFeatured (snap pend : State) (cmd command : String)
    (args : List String) (h : pend.isFullFeatured = true) :
    (switchCommand snap pend cmd command args).state.isFullFeatured = true := by
  unfold switchCommand
  dsimp only
  repeat' first
    | exact h
    | (rw [handleSection_state]; exact h)
    | (rw [handleLs_state]; exact h)
    | (rw [handleCat_state]; exact h)
    | (rw [handleMan_state]; exact h)
    | (rw [handleRm_state]; exact h)
    | (rw [handleId_state]; exact h)
    | (rw [handleChmod_state]; exact h)
    | (rw [handleChown_state]; exact h)
    | (rw [handleTouch_state]; exact h)
    | (rw [handleUnknown_state]; exact h)
    | (rw [handleCd_isFullFeatured]; exact h)
    | (rw [handleSudo_isFullFeatured]; exact h)
    | (rw [handleLang_isFullFeatured]; exact h)
    | apply ite_full

set_option maxRecDepth 8000 in
/-- No branch of the dispatcher writes the `fs` field. -/
theorem dispatch_fs (snap pend : State) (cmd : String) :
    (dispatchCommand snap pend cmd).state.fs = pend.fs := by
  unfold dispatchCommand
  dsimp only
  repeat' first
    | rfl
    | exact deviserStart_fs snap pend
    | exact switchCommand_fs snap pend _ _ _
    | apply ite_fs

set_option maxRecDepth 8000 in
/-- A set feature gate survives every dispatcher branch. -/
theorem dispatch_isFullFeatured (snap pend : State) (cmd : String)
    (h : pend.isFullFeatured = true) :
    (dispatchCommand snap pend cmd).state.isFullFeatured = true := by
  unfold dispatchCommand
  dsimp only
  repeat' first
    | exact h
    | exact deviserStart_isFullFeatured snap pend h
    | exact switchCommand_isFullFeatured snap pend _ _ _ h
    | apply ite_full

theorem applySched_fs (s : State) (sc : Sched) : (applySched s sc).fs = s.fs := by
  cases sc <;> rfl

theorem applySched_isFullFeatured (s : State) (sc : Sched) :
    (applySched s sc).isFullFeatured = s.isFullFeatured := by
  cases sc <;> rfl

theorem foldl_applySched_fs (steps : List Sched) (s : State) :
    (steps.foldl applySched s).fs = s.fs := by
  induction steps generalizing s with
  | nil => rfl
  | cons sc rest ih => rw [List.foldl_cons, ih, applySched_fs]

theorem foldl_applySched_isFullFeatured (steps : List Sched) (s : State) :
    (steps.foldl applySched s).isFullFeatured = s.isFullFeatured := by
  induction steps generalizing s with
  | nil => rfl
  | cons sc rest ih => rw [List.foldl_cons, ih, applySched_isFullFeatured]

theorem processCommand_fs (fuel : Nat) (snap pend : State) (cmd : String) :
    (processCommand fuel snap pend cmd).state.fs = pend.fs := by
  induction fuel generalizing pend cmd with
  | zero =>
    unfold processCommand
    split
    · split
      · rfl
      · split <;> rfl
    · exact dispatch_fs snap pend cmd
  | succ fuel ih =>
    unfold processCommand
    split
    · split
      · exact ih _ _
      · split <;> rfl
    · exact dispatch_fs snap pend cmd

theorem processCommand_isFullFeatured (fuel : Nat) (snap pend : State) (cmd : String)
    (h : pend.isFullFeatured = true) :
    (processCommand fuel snap pend cmd).state.isFullFeatured = true := by
  induction fuel generalizing pend cmd with
  | zero =>
    unfold processCommand
    split
    · split
      · exact h
      · split <;> exact h
    · exact dispatch_isFullFeatured snap pend cmd h
  | succ fuel ih =>
    unfold processCommand
    split
    · split
      · exact ih _ _ h
      · split <;> exact h
    · exact dispatch_isFullFeatured snap pend cmd h

theorem runCommand_fs (s : State) (cmd : String) : (runCommand s cmd).state.fs = s.fs :=
  processCommand_fs stackLimit s s cmd

theorem runCommand_isFullFeatured (s : State) (cmd : String) (h : s.isFullFeatured = true) :
    (runCommand s cmd).state.isFullFeatured = true :=
  processCommand_isFullFeatured stackLimit s s cmd h

/-- Once the prompt branch is ruled out, one submitted line is exactly one
dispatch. -/
theorem runCommand_eq_dispatch (s : State) (cmd : String) (hsp : s.isSudoPrompt = false) :
    runCommand s cmd = dispatchCommand s s cmd := by
  unfold runCommand processCommand
  rw [hsp, if_neg Bool.false_ne_true]

/-- The switch sends a `cd` line to the cd handler. -/
theorem switchCommand_cd (snap pend : State) (cmd : String) (args : List String) :
    switchCommand snap pend cmd "cd" args = handleCd snap pend args := rfl

/-- A line that splits as `cd t` and trips none of the raw-line guards is
handled by the cd handler. -/
theorem dispatch_cd (snap pend : State) (cmd t : String)
    (h1 : containsChar cmd '|' = false) (h2 : containsChar cmd '>' = false)
    (h3 : strStartsWith cmd "rm -rf" = false) (h4 : strStartsWith cmd "rm -fr" = false)
    (hsplit : jsSplit cmd ' ' = ["cd", t]) :
    dispatchCommand snap pend cmd = handleCd snap pend [t] := by
  unfold dispatchCommand
  simp [h1, h2, h3, h4, hsplit, switchCommand_cd,
    show toLowerStr "cd" = "cd" from rfl,
    (by decide : ("cd" : String) ∈ basicCommands)]

/-- `cd -` on a state with a remembered previous directory: swap and echo. -/
theorem runCommand_cd_dash (s : State) (p : String) (hsp : s.isSudoPrompt = false)
    (hprev : s.previousDirectory = some p) :
    runCommand s "cd -" =
      ⟨{ s with currentDirectory := p, previousDirectory := some s.currentDirectory },
       [], some [sys p]⟩ := by
  rw [runCommand_eq_dispatch s "cd -" hsp,
    dispatch_cd s s "cd -" "-" rfl rfl rfl rfl rfl]
  unfold handleCd
  simp [hprev, (by decide : ¬ (("-" : String) ∈ restrictedFolders))]

/-- The switch sends a line whose (lower-cased) name is no `case` to the
default arm. -/
theorem switchCommand_unknown (snap pend : State) (cmd command : String) (args : List String)
    (hk : knownCommands.contains (toLowerStr command) = false) :
    switchCommand snap pend cmd command args = handleUnknown snap pend cmd command args := by
  have hne : ∀ y : String, knownCommands.contains y = true → toLowerStr command ≠ y := by
    intro y hy heq
    rw [heq] at hk
    rw [hk] at hy
    exact Bool.false_ne_true hy
  simp [switchCommand, hne "help" rfl, hne "about" rfl, hne "skills" rfl, hne "projects" rfl,
    hne "contact" rfl, hne "github" rfl, hne "theme" rfl, hne "clear" rfl, hne "ls" rfl,
    hne "pwd" rfl, hne "whoami" rfl, hne "date" rfl, hne "cd" rfl, hne "cat" rfl,
    hne "mkdir" rfl, hne "find" rfl, hne "man" rfl, hne "echo" rfl, hne "uname" rfl,
    hne "exit" rfl, hne "logout" rfl, hne "rm" rfl, hne "sudo" rfl, hne "id" rfl,
    hne "chmod" rfl, hne "chown" rfl, hne "touch" rfl, hne "lang" rfl]

/-- In full-featured mode, a line whose name is no known command and that
trips none of the raw-line guards reaches the default arm. -/
theorem dispatch_unknown (snap pend : State) (cmd command : String) (args : List String)
    (hfull : snap.isFullFeatured = true)
    (h1 : containsChar cmd '|' = false) (h2 : containsChar cmd '>' = false)
    (h3 : strStartsWith cmd "rm -rf" = false) (h4 : strStartsWith cmd "rm -fr" = false)
    (hsplit : jsSplit cmd ' ' = command :: args)
    (hk : knownCommands.contains (toLowerStr command) = false) :
    dispatchCommand snap pend cmd = handleUnknown snap pend cmd command args := by
  have hdev : toLowerStr command ≠ "deviser" := fun heq => absurd (heq ▸ hk) (by decide)
  unfold dispatchCommand
  simp [h1, h2, h3, h4, hsplit, hfull, hdev,
    switchCommand_unknown snap pend cmd command args hk]

/-! ## The claims -/

/-- C2 (code evaluated at the failing input): with a pending `sudo whoami`
challenge, submitting the correct secret does set the privilege flag and
clear the challenge, and does re-dispatch the stored command line in the
same call — but that re-entrant call still sees the render snapshot in
which `isSudoPrompt` is true, so the stored command `whoami` is compared
against the secret and the user is shown an authentication failure; the
command never executes.  Had the re-dispatch seen the updated state, it
would have produced `root` (last conjunct).  The claim's required
behaviour — the re-dispatched command executing with privilege in effect
within the same user action — therefore fails on the code. -/
theorem correctSecretRedispatchConsumedByStalePrompt :
    (runCommand { fullState with isSudoPrompt := true, sudoCommand := "whoami" }
      "password").state.isRoot = true ∧
    (runCommand { fullState with isSudoPrompt := true, sudoCommand := "whoami" }
      "password").state.isSudoPrompt = false ∧
    (runCommand { fullState with isSudoPrompt := true, sudoCommand := "whoami" }
      "password").state.sudoCommand = "" ∧
    (runCommand { fullState with isSudoPrompt := true, sudoCommand := "whoami" }
      "password").state.passwordAttempts = 1 ∧
    (runCommand { fullState with isSudoPrompt := true, sudoCommand := "whoami" }
      "password").results = some [sys "", err "sudo: 認證失敗"] ∧
    (runCommand { fullState with isRoot := true } "whoami").results = some [suc "root"] :=
  ⟨rfl, rfl, rfl, rfl, rfl, rfl⟩

/-- C3 (code evaluated at the failing input): `chmod 644 resume.pdf` in a
full-featured session at the home directory does not return an
Error-kind record — `getFileSystemItem` starts its walk at the raw
`fileSystem` record, whose `.content` is `undefined`, and indexing it
throws an uncaught TypeError (modelled by `results = none`; the second
conjunct isolates the throwing call).  A privileged `chown` of the same
path crashes identically, refuting the claim that every chmod/chown error
is recovered locally. -/
theorem chmodRelativePathThrows :
    (runCommand fullState "chmod 644 resume.pdf").results = none ∧
    getFileSystemItem fullState "resume.pdf" = .error () ∧
    (runCommand { fullState with isRoot := true } "chown root resume.pdf").results = none :=
  ⟨rfl, rfl, rfl⟩

/-- C5: no command mutates the filesystem tree — for every state, every
input line and every number of fired scheduler steps, the tree field is
unchanged and every lookup gives a structurally identical result; and a
recursive-force-delete line (prefix form or flag-scattered form) replies
with the decoy banner and queues exactly the scripted rick-roll sequence,
nothing else. -/
theorem noCommandMutatesTree (s : State) (cmd : String) (steps : List Sched)
    (p : List String) :
    (steps.foldl applySched (runCommand s cmd).state).fs = s.fs ∧
    fileWalk (steps.foldl applySched (runCommand s cmd).state).fs p = fileWalk s.fs p ∧
    (runCommand fullState "rm -rf /").sched = rickRollSched "user" "terminal" ∧
    (runCommand fullState "rm / -fr").sched = rickRollSched "user" "terminal" ∧
    (runCommand fullState "rm -rf /").results =
      some [sys "[user@terminal ~]# rm -rf /*", suc "正在刪除檔案...請稍候"] := by
  have hfs : (steps.foldl applySched (runCommand s cmd).state).fs = s.fs := by
    rw [foldl_applySched_fs, runCommand_fs]
  exact ⟨hfs, by rw [hfs], rfl, rfl, rfl⟩

set_option maxRecDepth 100000 in
/-- Helper for the feature-gate scenario: the root listing after
`deviser start` and all its scheduled steps have run. -/
theorem lsAfterDeviserStart :
    (runCommand ((runCommand initialState "deviser start").sched.foldl applySched
        (runCommand initialState "deviser start").state) "ls").results =
      some [⟨.success, .listing
        [⟨"about", true, "rwxr-xr-x", "deviser", "users"⟩,
         ⟨"contact", true, "rwxr-xr-x", "deviser", "users"⟩,
         ⟨"projects", true, "rwxr-xr-x", "deviser", "users"⟩,
         ⟨"skills", true, "rwxr-xr-x", "deviser", "users"⟩,
         ⟨"resume.pdf", false, "rw-r--r--", "deviser", "users"⟩] false⟩] := by
  rfl

/-- C7: in Restricted mode `ls` at the root lists only the non-gated,
non-hidden top-level entry (`resume.pdf`); after `deviser start` has run
(scheduled boot steps included) the gate is set and `ls` at the root
lists the full entry set — the four previously gated directories first,
sorted, then the file — still subject to the hidden-dot-file rule; and
the gate never re-engages: every later command and every scheduled step
leaves it set. -/
theorem featureGateLsScenario :
    (runCommand initialState "ls").results =
      some [⟨.success, .listing [⟨"resume.pdf", false, "rw-r--r--", "deviser", "users"⟩] false⟩] ∧
    ((runCommand initialState "deviser start").sched.foldl applySched
        (runCommand initialState "deviser start").state).isFullFeatured = true ∧
    (runCommand ((runCommand initialState "deviser start").sched.foldl applySched
        (runCommand initialState "deviser start").state) "ls").results =
      some [⟨.success, .listing
        [⟨"about", true, "rwxr-xr-x", "deviser", "users"⟩,
         ⟨"contact", true, "rwxr-xr-x", "deviser", "users"⟩,
         ⟨"projects", true, "rwxr-xr-x", "deviser", "users"⟩,
         ⟨"skills", true, "rwxr-xr-x", "deviser", "users"⟩,
         ⟨"resume.pdf", false, "rw-r--r--", "deviser", "users"⟩] false⟩] ∧
    (∀ (s : State) (cmd : String), s.isFullFeatured = true →
      (runCommand s cmd).state.isFullFeatured = true) ∧
    (∀ (s : State) (sc : Sched), s.isFullFeatured = true →
      (applySched s sc).isFullFeatured = true) :=
  ⟨rfl, rfl, lsAfterDeviserStart,
   fun s cmd h => runCommand_isFullFeatured s cmd h,
   fun s sc h => by rw [applySched_isFullFeatured]; exact h⟩

/-- C7 witness: the gate-monotonicity conjuncts applied at a concrete
full-featured state. -/
theorem featureGateLsScenarioWitness :
    (runCommand fullState "pwd").state.isFullFeatured = true ∧
    (applySched fullState .clearScreen).isFullFeatured = true :=
  ⟨featureGateLsScenario.2.2.2.1 fullState "pwd" rfl,
   featureGateLsScenario.2.2.2.2 fullState .clearScreen rfl⟩

/-- `checkPermission`'s flat 0..8 index agrees with the specification's
triplet-slice-then-offset reading. -/
theorem checkPermission_eq_spec (s : State) (item : FSItem) (kind : AccessKind) :
    checkPermission s item kind =
      specCheckPermission s.isRoot item.permissions item.owner item.group
        s.userName s.groups kind := by
  unfold checkPermission specCheckPermission
  cases hr : s.isRoot
  · by_cases ho : item.owner = s.userName
    · cases kind <;>
        simp [ho, List.get?_take (by decide : (0:Nat) < 3),
          List.get?_take (by decide : (1:Nat) < 3),
          List.get?_take (by decide : (2:Nat) < 3), List.get?_drop]
    · by_cases hg : item.group ∈ s.groups
      · have hgc : s.groups.contains item.group = true := by simpa using hg
        cases kind <;>
          simp [ho, hg, hgc, List.get?_take (by decide : (0:Nat) < 3),
            List.get?_take (by decide : (1:Nat) < 3),
            List.get?_take (by decide : (2:Nat) < 3), List.get?_drop]
      · have hgc : s.groups.contains item.group = false := by simpa using hg
        cases kind <;>
          simp [ho, hg, hgc, List.get?_take (by decide : (0:Nat) < 3),
            List.get?_take (by decide : (1:Nat) < 3),
            List.get?_take (by decide : (2:Nat) < 3), List.get?_drop]
  · rfl

/-- C6: the permission check is the pure first-match-wins triplet rule:
a privileged actor is always allowed, otherwise exactly one triplet is
selected (owner column iff the actor is the node's owner, else group
column iff the actor's groups contain the node's group, else other
column) and the fixed offset 0/1/2 for the access kind is tested inside
that slice, never additively across triplets (first conjunct:
`checkPermission` equals the spec-side slice definition); it is a
deterministic, pure function of exactly `(permissions, owner, group,
actor identity, actor groups, privileged flag)` (second conjunct:
extensionality in those six values). -/
theorem checkPermissionMatchesSpecTriplet (s : State) (item : FSItem) (kind : AccessKind) :
    checkPermission s item kind =
      specCheckPermission s.isRoot item.permissions item.owner item.group
        s.userName s.groups kind ∧
    (∀ (s' : State) (item' : FSItem),
      s.isRoot = s'.isRoot → s.userName = s'.userName → s.groups = s'.groups →
      item.permissions = item'.permissions → item.owner = item'.owner →
      item.group = item'.group →
      checkPermission s item kind = checkPermission s' item' kind) := by
  refine ⟨checkPermission_eq_spec s item kind, ?_⟩
  intro s' item' h1 h2 h3 h4 h5 h6
  rw [checkPermission_eq_spec s item kind, checkPermission_eq_spec s' item' kind,
    h1, h2, h3, h4, h5, h6]

/-- C6 witness: the equivalence and the extensionality at a concrete node
and actor. -/
theorem checkPermissionMatchesSpecTripletWitness :
    checkPermission initialState (FSItem.file [] none "rw-r--r--" "deviser" "users") .write =
      specCheckPermission false "rw-r--r--" "deviser" "users" "user" ["users"] .write ∧
    checkPermission initialState (FSItem.file [] none "rw-r--r--" "deviser" "users") .write =
      checkPermission fullState (FSItem.file ["x"] (some []) "rw-r--r--" "deviser" "users") .write :=
  ⟨(checkPermissionMatchesSpecTriplet initialState _ .write).1,
   (checkPermissionMatchesSpecTriplet initialState _ .write).2 fullState
     (FSItem.file ["x"] (some []) "rw-r--r--" "deviser" "users") rfl rfl rfl rfl rfl rfl⟩

/-- C9: every listing `ls` produces is ordered by the rule "all
directories before all files, each group lexicographically" (it is
`Sorted` under exactly that relation), and with the hidden flag off no
displayed name starts with a dot — for every directory map and every
feature-gate state. -/
theorem lsListingSorted (m : List (String × FSItem)) (showHidden isFullFeatured : Bool) :
    List.Sorted
      (fun a b =>
        (entryIsDir m a = true ∧ entryIsDir m b = false) ∨
        (entryIsDir m a = entryIsDir m b ∧ strLe a b = true))
      (lsItems m showHidden isFullFeatured) ∧
    (∀ n ∈ lsItems m false isFullFeatured, strStartsWith n "." = false) := by
  constructor
  · exact List.sorted_insertionSort (lsLE m) _
  · intro n hn
    unfold lsItems at hn
    rw [List.mem_insertionSort] at hn
    cases isFullFeatured
    · have h2 := List.mem_of_mem_filter hn
      have h3 := List.of_mem_filter h2
      simpa using h3
    · have h3 := List.of_mem_filter hn
      simpa using h3

/-- C9 witness: the sortedness and the dot-exclusion applied to the
top-level record. -/
theorem lsListingSortedWitness :
    List.Sorted
      (fun a b =>
        (entryIsDir fileSystem a = true ∧ entryIsDir fileSystem b = false) ∨
        (entryIsDir fileSystem a = entryIsDir fileSystem b ∧ strLe a b = true))
      (lsItems fileSystem false true) ∧
    strStartsWith "~" "." = false :=
  ⟨(lsListingSorted fileSystem false true).1,
   (lsListingSorted fileSystem false true).2 "~" (by decide)⟩

/-- C10: when the session locale is `en_US` and the resolved file defines
no English variant (`contentEn` absent — e.g. the project README files
and the `.github` files), `cat`'s content lookup returns the default
(Chinese) lines rather than an error (first conjunct, for every state and
path); concretely, `cat projects/terminal-portfolio/README.md` in an
English full-featured session prints the default README lines as success
records (second conjunct). -/
theorem catLocaleFallback (s : State) (filePath : String) (content : List String)
    (perms owner grp : String)
    (hlang : s.language = .en_US)
    (hfile : getFileNode s filePath = .ok (some (.file content none perms owner grp))) :
    getFileContent s filePath = .ok (some content) ∧
    (runCommand { fullState with language := .en_US }
        "cat projects/terminal-portfolio/README.md").results =
      some (terminalPortfolioReadme.map suc) := by
  refine ⟨?_, rfl⟩
  unfold getFileContent
  rw [hfile, hlang]
  rfl

/-- C1 counterexample: with a pending challenge (`sudo whoami`, zero
failures so far), submitting the wrong secret does report an
authentication failure and count the attempt — but the session does not
remain in AwaitingSecret: the prompt flag is cleared by the unconditional
reset at the top of the handler (third conjunct), and the next submitted
line is parsed as an ordinary command (`whoami` prints the user name,
fourth conjunct) instead of being treated as a password, refuting the
claim as stated. -/
theorem wrongSecretLeavesPromptCounterexample :
    (runCommand { fullState with isSudoPrompt := true, sudoCommand := "whoami" }
      "wrong").results = some [err "sudo: 認證失敗"] ∧
    (runCommand { fullState with isSudoPrompt := true, sudoCommand := "whoami" }
      "wrong").state.passwordAttempts = 1 ∧
    (runCommand { fullState with isSudoPrompt := true, sudoCommand := "whoami" }
      "wrong").state.isSudoPrompt = false ∧
    (runCommand (runCommand { fullState with isSudoPrompt := true, sudoCommand := "whoami" }
      "wrong").state "whoami").results = some [suc "user"] :=
  ⟨rfl, rfl, rfl, rfl⟩

/-- C1 (amended): while the session is awaiting the sudo secret, a
non-matching submission increments the attempt counter, and once two
failures have already accumulated (the third wrong secret, counted
across sudo invocations) the pending command is cleared, the counter
resets and a lockout error is reported; otherwise an authentication
failure is reported and the pending command is kept — but in every case
the prompt state is cleared immediately, so the session does not remain
in AwaitingSecret and the next submission is parsed as an ordinary
command line. -/
theorem wrongSecretAttemptsAndLockout (s : State) (cmd : String)
    (hp : s.isSudoPrompt = true) (hc : cmd ≠ "password") :
    (runCommand s cmd).state.isSudoPrompt = false ∧
    (if s.passwordAttempts ≥ 2 then
      (runCommand s cmd).state.passwordAttempts = 0 ∧
      (runCommand s cmd).state.sudoCommand = "" ∧
      (runCommand s cmd).results = some [err "sudo: 3 次錯誤的密碼嘗試"]
    else
      (runCommand s cmd).state.passwordAttempts = s.passwordAttempts + 1 ∧
      (runCommand s cmd).state.sudoCommand = s.sudoCommand ∧
      (runCommand s cmd).results = some [err "sudo: 認證失敗"]) := by
  unfold runCommand processCommand
  rw [hp, if_pos rfl, if_neg hc]
  dsimp only
  by_cases hatt : s.passwordAttempts ≥ 2
  · rw [if_pos hatt, if_pos hatt]
    exact ⟨rfl, rfl, rfl, rfl⟩
  · rw [if_neg hatt, if_neg hatt]
    exact ⟨rfl, rfl, rfl, rfl⟩

/-- C1 witness: the amended claim applied to a concrete challenge with a
concrete wrong secret. -/
theorem wrongSecretAttemptsAndLockoutWitness :
    (runCommand { fullState with isSudoPrompt := true, sudoCommand := "ls" }
      "oops").state.isSudoPrompt = false ∧
    (runCommand { fullState with isSudoPrompt := true, sudoCommand := "ls" }
      "oops").state.passwordAttempts = 1 := by
  have h := wrongSecretAttemptsAndLockout
    { fullState with isSudoPrompt := true, sudoCommand := "ls" } "oops" rfl (by decide)
  refine ⟨h.1, ?_⟩
  have h2 := h.2
  rw [if_neg (by decide)] at h2
  exact h2.1

/-- C10 witness: the fallback applied to `.github/profile.txt`, a file
with no English variant. -/
theorem catLocaleFallbackWitness :
    getFileContent { fullState with language := .en_US } ".github/profile.txt" =
      .ok (some githubProfileTxt) ∧
    (runCommand { fullState with language := .en_US }
        "cat projects/terminal-portfolio/README.md").results =
      some (terminalPortfolioReadme.map suc) :=
  catLocaleFallback { fullState with language := .en_US } ".github/profile.txt"
    githubProfileTxt "rw-r--r--" "deviser" "users" rfl rfl

/-- C4 counterexample: `cd about` (cwd becomes `~/about`), then a bare
`cd` — a successful cd invocation, which the claim explicitly includes —
moves cwd to `~` but leaves previousDirectory at `~` instead of
recording `~/about`; the following `cd -` therefore lands on `~`, not on
`~/about`, the directory that was active before the most recent cd. -/
theorem cdDashAfterBareCdCounterexample :
    (runCommand fullState "cd about").results = some [] ∧
    (runCommand fullState "cd about").state.currentDirectory = "~/about" ∧
    (runCommand (runCommand fullState "cd about").state "cd").results = some [] ∧
    (runCommand (runCommand fullState "cd about").state "cd").state.currentDirectory = "~" ∧
    (runCommand (runCommand fullState "cd about").state
      "cd").state.previousDirectory = some "~" ∧
    (runCommand (runCommand (runCommand fullState "cd about").state "cd").state
      "cd -").results = some [sys "~"] ∧
    (runCommand (runCommand (runCommand fullState "cd about").state "cd").state
      "cd -").state.currentDirectory = "~" ∧
    ("~" : String) ≠ "~/about" :=
  ⟨rfl, rfl, rfl, rfl, rfl, rfl, rfl, by decide⟩

/-- C4 (amended): the restore/swap law holds when the first invocation is
a path-argument cd — a line splitting as `cd t` with `t` neither `..` nor
`-` — and succeeds (empty result list): it records the old cwd as the
previous directory, and a following `cd -` echoes and restores that old
cwd while storing the intermediate cwd as the new previous directory
(the swap).  Bare `cd` and `cd ..` are excluded: they move cwd without
touching previousDirectory, so after them `cd -` does not return to the
directory active before the move. -/
theorem cdDashRestoresAfterPathCd (s : State) (cmd t : String)
    (hsplit : jsSplit cmd ' ' = ["cd", t])
    (hdots : t ≠ "..") (hdash : t ≠ "-")
    (hok : (runCommand s cmd).results = some []) :
    (runCommand s cmd).state.previousDirectory = some s.currentDirectory ∧
    (runCommand (runCommand s cmd).state "cd -").results = some [sys s.currentDirectory] ∧
    (runCommand (runCommand s cmd).state "cd -").state.currentDirectory =
      s.currentDirectory ∧
    (runCommand (runCommand s cmd).state "cd -").state.previousDirectory =
      some (runCommand s cmd).state.currentDirectory := by
  have hspf : s.isSudoPrompt = false := by
    cases hb : s.isSudoPrompt
    · rfl
    · exfalso
      unfold runCommand processCommand at hok
      rw [hb, if_pos rfl] at hok
      by_cases hpw : cmd = "password"
      · rw [hpw] at hsplit
        rw [show jsSplit "password" ' ' = ["password"] from rfl] at hsplit
        have hps : ("password" : String) = "cd" := by injection hsplit
        exact absurd hps (by decide)
      · rw [if_neg hpw] at hok
        dsimp only at hok
        split at hok <;> simp at hok
  rw [runCommand_eq_dispatch s cmd hspf] at hok ⊢
  have h1 : containsChar cmd '|' = false := by
    cases hx : containsChar cmd '|'
    · rfl
    · exfalso
      have hok' := hok
      unfold dispatchCommand at hok'
      rw [hx, if_pos rfl] at hok'
      simp at hok'
  have h2 : containsChar cmd '>' = false := by
    cases hx : containsChar cmd '>'
    · rfl
    · exfalso
      have hok' := hok
      unfold dispatchCommand at hok'
      rw [h1, if_neg Bool.false_ne_true, hx, if_pos rfl] at hok'
      simp at hok'
  have h34 : strStartsWith cmd "rm -rf" = false ∧ strStartsWith cmd "rm -fr" = false := by
    by_cases hx : (strStartsWith cmd "rm -rf" || strStartsWith cmd "rm -fr") = true
    · exfalso
      have hok' := hok
      unfold dispatchCommand at hok'
      rw [h1, if_neg Bool.false_ne_true, h2, if_neg Bool.false_ne_true,
        if_pos hx] at hok'
      simp [rickRoll] at hok'
    · simp only [Bool.or_eq_true, not_or, Bool.not_eq_true] at hx
      exact hx
  rw [dispatch_cd s s cmd t h1 h2 h34.1 h34.2 hsplit] at hok ⊢
  have hmain : ∃ np, handleCd s s [t] =
      ⟨{ s with previousDirectory := some s.currentDirectory
                currentDirectory := np }, [], some []⟩ := by
    unfold handleCd at hok
    rw [if_neg (by simp : ¬ (([t] : List String).length = 0))] at hok
    simp only [List.headD_cons] at hok
    unfold handleCd
    rw [if_neg (by simp : ¬ (([t] : List String).length = 0))]
    simp only [List.headD_cons]
    by_cases hrc : (!s.isFullFeatured && restrictedFolders.contains t) = true
    · rw [if_pos hrc] at hok
      simp at hok
    rw [if_neg hrc] at hok ⊢
    rw [if_neg hdots, if_neg hdash] at hok ⊢
    by_cases habs : strStartsWith t "/" = true
    · rw [if_pos habs] at hok ⊢
      cases hgd : getDirectoryFromPath s (if t = "/" then "~" else "~" ++ t) with
      | error e =>
        rw [hgd] at hok
        simp at hok
      | ok o =>
        cases o with
        | none =>
          rw [hgd] at hok
          simp at hok
        | some g =>
          exact ⟨if t = "/" then "~" else "~" ++ t, rfl⟩
    · rw [if_neg habs] at hok ⊢
      cases hgd : getDirectoryFromPath s
          (if s.currentDirectory = "~" then "~/" ++ t
            else s.currentDirectory ++ "/" ++ t) with
      | error e =>
        rw [hgd] at hok
        simp at hok
      | ok o =>
        cases o with
        | none =>
          rw [hgd] at hok
          simp at hok
        | some g =>
          exact ⟨if s.currentDirectory = "~" then "~/" ++ t
            else s.currentDirectory ++ "/" ++ t, rfl⟩
  obtain ⟨np, hse⟩ := hmain
  rw [hse]
  dsimp only
  refine ⟨rfl, ?_, ?_, ?_⟩ <;>
    rw [runCommand_cd_dash
      { s with previousDirectory := some s.currentDirectory
               currentDirectory := np } s.currentDirectory hspf rfl]

/-- C4 witness: the amended law at a concrete path-argument cd. -/
theorem cdDashRestoresAfterPathCdWitness :
    (runCommand fullState "cd skills").state.previousDirectory = some "~" ∧
    (runCommand (runCommand fullState "cd skills").state "cd -").results = some [sys "~"] ∧
    (runCommand (runCommand fullState "cd skills").state
      "cd -").state.currentDirectory = "~" ∧
    (runCommand (runCommand fullState "cd skills").state
      "cd -").state.previousDirectory = some "~/skills" := by
  have h := cdDashRestoresAfterPathCd fullState "cd skills" "skills" rfl
    (by decide) (by decide) rfl
  exact ⟨h.1, h.2.1, h.2.2.1, h.2.2.2⟩

/-- C8 counterexample: the hyphen test is `includes('-')` over the whole
line, not a `-`-prefixed-token test, and it is never consulted for known
commands.  `foo a-b` has no `-`-prefixed token (second conjunct) yet is
reported as an invalid option (first conjunct); and the known command
`ls` with the unknown flag `-z` reports no error at all — it just lists
the directory (third conjunct). -/
theorem hyphenAnywhereCounterexample :
    (runCommand fullState "foo a-b").results =
      some [err "foo: 無效的選項 -- 'a-b'"] ∧
    (∀ tok ∈ jsSplit "foo a-b" ' ', strStartsWith tok "-" = false) ∧
    (runCommand fullState "ls -z").results =
      some [⟨.success, .listing
        [⟨"about", true, "rwxr-xr-x", "deviser", "users"⟩,
         ⟨"contact", true, "rwxr-xr-x", "deviser", "users"⟩,
         ⟨"projects", true, "rwxr-xr-x", "deviser", "users"⟩,
         ⟨"skills", true, "rwxr-xr-x", "deviser", "users"⟩,
         ⟨"resume.pdf", false, "rw-r--r--", "deviser", "users"⟩] false⟩] :=
  ⟨rfl, by decide, rfl⟩

/-- C8 (amended): for a full-featured session and an input line whose
command name is not a known command (and which trips none of the
raw-line pipe/redirect/rm-rf guards), the default arm reports an invalid
option exactly when the whole line contains a `-` character anywhere
(not merely as a token prefix), quoting the joined arguments, and
otherwise reports command-not-found; either way the session state is
unchanged.  Known commands never reach this arm: their unknown flags are
interpreted (or ignored) by the individual handler. -/
theorem unknownCommandHyphenAnywhere (s : State) (cmd command : String) (args : List String)
    (hsp : s.isSudoPrompt = false) (hfull : s.isFullFeatured = true)
    (h1 : containsChar cmd '|' = false) (h2 : containsChar cmd '>' = false)
    (h3 : strStartsWith cmd "rm -rf" = false) (h4 : strStartsWith cmd "rm -fr" = false)
    (hsplit : jsSplit cmd ' ' = command :: args)
    (hk : knownCommands.contains (toLowerStr command) = false) :
    (runCommand s cmd).results = some
      [err (if containsChar cmd '-' then
          command ++ ": " ++ getText s.language "err_invalid_option" ++
            " -- '" ++ String.intercalate " " args ++ "'"
        else command ++ ": " ++ getText s.language "err_cmd_not_found")] ∧
    (runCommand s cmd).state = s := by
  rw [runCommand_eq_dispatch s cmd hsp,
    dispatch_unknown s s cmd command args hfull h1 h2 h3 h4 hsplit hk]
  unfold handleUnknown
  cases hH : containsChar cmd '-' <;> simp [hH]

/-- C8 witness: the amended rule at the concrete line `foo a-b`. -/
theorem unknownCommandHyphenAnywhereWitness :
    (runCommand fullState "foo a-b").results =
      some [err "foo: 無效的選項 -- 'a-b'"] ∧
    (runCommand fullState "foo a-b").state = fullState := by
  have h := unknownCommandHyphenAnywhere fullState "foo a-b" "foo" ["a-b"]
    rfl rfl rfl rfl rfl rfl rfl rfl
  refine ⟨?_, h.2⟩
  rw [h.1]
  rfl

end Devios
